import Mathlib

/-! FaceSense attendance kiosk.

A shallow embedding of `frontend/src/components/AttendanceKiosk.jsx`, of
`frontend/src/components/FaceRegistration.jsx` and of the three functions of
`frontend/src/api.js` they call: the React state of a component is a record, every handler is
a function from the state at the moment of the call (plus what the outside world answers) to
the state after the handler has run and the list of gateway calls it issued.

Conventions of the embedding.

* A gateway promise is given to a handler as `Except String JVal`: `.ok data` is a promise
  resolved with `data`, `.error m` a promise rejected with an error whose `message` is `m`.
* An `async` handler is split at its `await`: `…Start` is the synchronous part (it returns
  `none` when the handler returns before any call), `…Settle` is the part that runs once the
  promise has settled. The un-suffixed function runs both with nothing interleaved.
* A session is also run over a list of events (callbacks, clicks, answers); the registration
  keeps its outstanding calls, so that clicks and answers interleave.
-/

namespace FaceSense

/-! ## JavaScript values -/

/-- A JavaScript value as the kiosk sees it: `undefined` plus what `JSON.parse` can produce.
Numbers are the integer-valued ones. An object is the list of its own properties, the first
entry of a name being that property. -/
inductive JVal where
  | undefined
  | null
  | bool (b : Bool)
  | num (n : Int)
  | str (s : String)
  | arr (xs : List JVal)
  | obj (props : List (String × JVal))

namespace JVal

mutual
/-- Decidable equality of values. -/
def decEq : (a b : JVal) → Decidable (a = b)
  | .undefined, .undefined => isTrue rfl
  | .null, .null => isTrue rfl
  | .bool a, .bool b =>
    if h : a = b then isTrue (by rw [h]) else isFalse (by intro e; cases e; exact h rfl)
  | .num a, .num b =>
    if h : a = b then isTrue (by rw [h]) else isFalse (by intro e; cases e; exact h rfl)
  | .str a, .str b =>
    if h : a = b then isTrue (by rw [h]) else isFalse (by intro e; cases e; exact h rfl)
  | .arr a, .arr b =>
    match decEqList a b with
    | isTrue h => isTrue (by rw [h])
    | isFalse h => isFalse (by intro e; cases e; exact h rfl)
  | .obj a, .obj b =>
    match decEqProps a b with
    | isTrue h => isTrue (by rw [h])
    | isFalse h => isFalse (by intro e; cases e; exact h rfl)
  | .undefined, .null | .undefined, .bool _ | .undefined, .num _ | .undefined, .str _
  | .undefined, .arr _ | .undefined, .obj _ => isFalse (by intro e; cases e)
  | .null, .undefined | .null, .bool _ | .null, .num _ | .null, .str _
  | .null, .arr _ | .null, .obj _ => isFalse (by intro e; cases e)
  | .bool _, .undefined | .bool _, .null | .bool _, .num _ | .bool _, .str _
  | .bool _, .arr _ | .bool _, .obj _ => isFalse (by intro e; cases e)
  | .num _, .undefined | .num _, .null | .num _, .bool _ | .num _, .str _
  | .num _, .arr _ | .num _, .obj _ => isFalse (by intro e; cases e)
  | .str _, .undefined | .str _, .null | .str _, .bool _ | .str _, .num _
  | .str _, .arr _ | .str _, .obj _ => isFalse (by intro e; cases e)
  | .arr _, .undefined | .arr _, .null | .arr _, .bool _ | .arr _, .num _
  | .arr _, .str _ | .arr _, .obj _ => isFalse (by intro e; cases e)
  | .obj _, .undefined | .obj _, .null | .obj _, .bool _ | .obj _, .num _
  | .obj _, .str _ | .obj _, .arr _ => isFalse (by intro e; cases e)
/-- Decidable equality of arrays of values. -/
def decEqList : (a b : List JVal) → Decidable (a = b)
  | [], [] => isTrue rfl
  | [], _ :: _ => isFalse (by intro e; cases e)
  | _ :: _, [] => isFalse (by intro e; cases e)
  | x :: xs, y :: ys =>
    match decEq x y, decEqList xs ys with
    | isTrue h, isTrue t => isTrue (by rw [h, t])
    | isFalse h, _ => isFalse (by intro e; cases e; exact h rfl)
    | _, isFalse t => isFalse (by intro e; cases e; exact t rfl)
/-- Decidable equality of property lists. -/
def decEqProps : (a b : List (String × JVal)) → Decidable (a = b)
  | [], [] => isTrue rfl
  | [], _ :: _ => isFalse (by intro e; cases e)
  | _ :: _, [] => isFalse (by intro e; cases e)
  | (k, x) :: xs, (l, y) :: ys =>
    if hk : k = l then
      match decEq x y, decEqProps xs ys with
      | isTrue h, isTrue t => isTrue (by rw [hk, h, t])
      | isFalse h, _ => isFalse (by intro e; cases e; exact h rfl)
      | _, isFalse t => isFalse (by intro e; cases e; exact t rfl)
    else isFalse (by intro e; cases e; exact hk rfl)
end

instance : DecidableEq JVal := decEq

/-- JavaScript `ToBoolean`: what `if (v)`, `!v`, `v && …`, `v || …` and `v ? … : …` test. -/
def truthy : JVal → Bool
  | .undefined => false
  | .null => false
  | .bool b => b
  | .num n => n != 0
  | .str s => s != ""
  | .arr _ => true
  | .obj _ => true

/-- Whether the value is `null` or `undefined`. -/
def isNullish : JVal → Bool
  | .undefined => true
  | .null => true
  | _ => false

/-- The value of the first property called `k` in a property list, `undefined` when there is
none. -/
def lookup : List (String × JVal) → String → JVal
  | [], _ => .undefined
  | (name, v) :: rest, k => if name = k then v else lookup rest k

/-- The read `v.k` on a receiver that is not nullish. The kiosk reads only the names
`recognized`, `location_ok`, `message`, `name`, `user_id` and `confidence`, which no string,
number, boolean or array defines, so those receivers give `undefined`. -/
def get (v : JVal) (k : String) : JVal :=
  match v with
  | .obj props => lookup props k
  | _ => .undefined

/-- The read `v?.k`: `undefined` on a nullish receiver, `v.k` otherwise. -/
def optGet (v : JVal) (k : String) : JVal :=
  if v.isNullish then .undefined else v.get k

/-- The `message` of the `TypeError` thrown by `v.k` on a nullish receiver (the wording is the
one of V8; no theorem depends on more than its not being one of the kiosk texts). -/
def typeErrorMessage (v : JVal) (k : String) : String :=
  "Cannot read properties of " ++ (if v = .null then "null" else "undefined") ++
    " (reading \x27" ++ k ++ "\x27)"

/-- The read `v.k` in full: it throws a `TypeError` on a nullish receiver. -/
def prop (v : JVal) (k : String) : Except String JVal :=
  if v.isNullish then .error (typeErrorMessage v k) else .ok (v.get k)

/-- The expression `a || b`. -/
def or (a b : JVal) : JVal :=
  if a.truthy then a else b

mutual
/-- JavaScript `ToString`, as applied to a template-literal substitution. -/
def toStr : JVal → String
  | .undefined => "undefined"
  | .null => "null"
  | .bool true => "true"
  | .bool false => "false"
  | .num n => toString n
  | .str s => s
  | .arr xs => joinStr xs
  | .obj _ => "[object Object]"
/-- The result of `Array.prototype.join` with the separator `,`: nullish elements give the
empty string. -/
def joinStr : List JVal → String
  | [] => ""
  | [x] => if x.isNullish then "" else toStr x
  | x :: y :: rest => (if x.isNullish then "" else toStr x) ++ "," ++ joinStr (y :: rest)
end

end JVal

/-- The method `String.prototype.toUpperCase` on ASCII text (the kiosk calls it on `in` and
`out`). -/
def toUpperCase (s : String) : String :=
  String.mk (s.data.map Char.toUpper)

/-! ## State, refs and gateway calls -/

/-- The `location` state: `lat` and `lon` are `null` until the geolocation success callback
stores two numbers. -/
structure Coords where
  lat : JVal
  lon : JVal
  deriving DecidableEq

/-- The React state of `AttendanceKiosk` that the handlers read and write. (`stream` is written
once by the camera effect and read nowhere.) -/
structure KioskState where
  result : JVal
  status : JVal
  location : Coords
  capturing : Bool
  deriving DecidableEq

/-- The state of a freshly mounted kiosk: the arguments of the `useState` calls. -/
def KioskState.init : KioskState :=
  { result := .null, status := .str "", location := { lat := .null, lon := .null },
    capturing := false }

/-- What `captureFrame` reads from the `<video>` element: its intrinsic size, and `jpeg`, the
base64 text that encoding the current frame as JPEG at quality 0.8 produces. -/
structure VideoElement where
  videoWidth : Nat
  videoHeight : Nat
  jpeg : String
  deriving DecidableEq

/-- The two refs: `videoRef.current` (`none` for `null`) and whether `canvasRef.current` is
set. -/
structure Refs where
  video : Option VideoElement
  canvas : Bool
  deriving DecidableEq

/-- The value of `c.toDataURL(image/jpeg, 0.8)` after the frame was drawn on a canvas sized like
the video: the text `data:,` for a canvas without pixels, a JPEG data URL otherwise. -/
def toDataURL (v : VideoElement) : String :=
  if v.videoHeight = 0 then "data:," else "data:image/jpeg;base64," ++ v.jpeg

/-- The function `captureFrame` (lines 37-46): `null` unless both refs are set and the video
has a width. -/
def captureFrame (r : Refs) : JVal :=
  match r.video with
  | none => .null
  | some v =>
    if !r.canvas || v.videoWidth = 0 then .null
    else .str (toDataURL v)

/-- A call of one of the three `api.js` functions the two sessions use, with its arguments in
order. -/
inductive GatewayCall where
  | recognizeFace (imageBase64 lat lon : JVal)
  | markAttendance (userId userName : JVal) (type : String) (lat lon locationOk : JVal)
  | registerFace (userId imageBase64 lat lon : JVal)
  deriving DecidableEq

/-- The outcome of running a handler to completion: the state it leaves and the gateway calls
it issued, in order. -/
structure Run where
  state : KioskState
  calls : List GatewayCall
  deriving DecidableEq

/-! ## `handleRecognize` (lines 48-67) -/

/-- The synchronous part of `handleRecognize`, up to the `await`: `none` when `captureFrame`
gave nothing, otherwise the state after the three setters and the call that was issued. -/
def handleRecognizeStart (s : KioskState) (r : Refs) : Option (KioskState × GatewayCall) :=
  let img := captureFrame r
  if !img.truthy then none
  else
    some ({ s with capturing := true, status := .str "Recognizing...", result := .null },
      .recognizeFace img s.location.lat s.location.lon)

/-- The body of the `try` block after the `await` resolved with `data`: the state it reached,
and the message of the error it threw, if any. -/
def recognizeTry (s : KioskState) (data : JVal) : KioskState × Option String :=
  let s1 := { s with result := data }
  match data.prop "recognized" with
  | .error m => (s1, some m)
  | .ok recognized =>
    if recognized.truthy then
      match data.prop "location_ok" with
      | .error m => (s1, some m)
      | .ok locationOk =>
        ({ s1 with status := .str (if locationOk.truthy then "Recognized - Press IN or OUT"
            else "Location mismatch - attendance denied") }, none)
    else
      match data.prop "message" with
      | .error m => (s1, some m)
      | .ok message => ({ s1 with status := message.or (.str "Face not recognized") }, none)

/-- The rest of `handleRecognize` once the promise has settled: the `try` body or, on an error
(of the call or of the body), the `catch`; then the `finally`. -/
def handleRecognizeSettle (s : KioskState) (reply : Except String JVal) : KioskState :=
  let s1 :=
    match reply with
    | .error m => { s with status := .str m }
    | .ok data =>
      match recognizeTry s data with
      | (s2, none) => s2
      | (s2, some m) => { s2 with status := .str m }
  { s1 with capturing := false }

/-- The handler `handleRecognize` run to completion with the gateway answering `reply`. -/
def handleRecognize (s : KioskState) (r : Refs) (reply : Except String JVal) : Run :=
  match handleRecognizeStart s r with
  | none => { state := s, calls := [] }
  | some (s1, call) => { state := handleRecognizeSettle s1 reply, calls := [call] }

/-! ## `handleMark` (lines 69-80) -/

/-- The synchronous part of `handleMark`, up to the `await`: `none` when the guard of line 70
returns, otherwise the state after `setCapturing(true)` and the call that was issued. (After
`result?.recognized` was truthy, `result` is an object, so the plain reads do not throw.) -/
def handleMarkStart (s : KioskState) (type : String) : Option (KioskState × GatewayCall) :=
  if !(s.result.optGet "recognized").truthy || !(s.result.get "location_ok").truthy then none
  else
    some ({ s with capturing := true },
      .markAttendance (s.result.get "user_id") (s.result.get "name") type
        s.location.lat s.location.lon (.bool true))

/-- The rest of `handleMark` once the promise has settled; `result` is the one of the render
the handler was created in. -/
def handleMarkSettle (result : JVal) (type : String) (s : KioskState)
    (reply : Except String JVal) : KioskState :=
  let s1 :=
    match reply with
    | .ok _ =>
      let text := (result.get "name").toStr ++ " marked " ++ toUpperCase type ++ " successfully"
      { s with status := .str text }
    | .error m => { s with status := .str m }
  { s1 with capturing := false }

/-- The handler `handleMark` run to completion with the gateway answering `reply`. -/
def handleMark (s : KioskState) (type : String) (reply : Except String JVal) : Run :=
  match handleMarkStart s type with
  | none => { state := s, calls := [] }
  | some (s1, call) => { state := handleMarkSettle s.result type s1 reply, calls := [call] }

/-! ## Rendering (lines 82-127) -/

/-- What the result panel shows: the matched subject, or the status text. -/
inductive PanelBody where
  | matched (name confidence : JVal) (locationFailed : Bool)
  | statusText (status : JVal)
  deriving DecidableEq

/-- The parts of the rendered kiosk that depend on the state. -/
structure KioskView where
  overlay : String
  recognizeDisabled : Bool
  markButtons : Option Bool
  panel : Option (String × PanelBody)
  statusLine : Option JVal
  deriving DecidableEq

/-- The value of `result?.recognized && result.location_ok` as a test: whether the fragment
with the two mark buttons is rendered (lines 101-110). -/
def markButtonsRendered (s : KioskState) : Bool :=
  (s.result.optGet "recognized").truthy && (s.result.get "location_ok").truthy

/-- The class that follows `attendance-status` on the result panel (line 114). -/
def panelClass (result : JVal) : String :=
  if (result.get "recognized").truthy && (result.get "location_ok").truthy then "success"
  else if (result.get "recognized").truthy then "error"
  else "info"

/-- The body of the result panel (lines 115-122). -/
def panelBody (s : KioskState) : PanelBody :=
  if (s.result.get "recognized").truthy then
    .matched (s.result.get "name") (s.result.get "confidence")
      (!(s.result.get "location_ok").truthy)
  else .statusText s.status

/-- The render function of `AttendanceKiosk`: `markButtons` is `some d` when Mark IN and
Mark OUT are rendered, with `disabled = d`; `panel` is the class and the body of the result
panel, rendered when `result` is truthy; `statusLine` is the text of the closing paragraph. -/
def render (s : KioskState) : KioskView :=
  { overlay := "FaceSense Pattern | " ++
      (if s.location.lat.truthy then "Location captured" else "Requesting location..."),
    recognizeDisabled := s.capturing,
    markButtons := if markButtonsRendered s then some s.capturing else none,
    panel := if s.result.truthy then some (panelClass s.result, panelBody s) else none,
    statusLine :=
      if s.status.truthy && !(s.result.optGet "recognized").truthy then some s.status
      else none }

/-! ## `api.js`: request bodies and results (lines 129-138, 147-172) -/

/-- The object each `api.js` function hands to `JSON.stringify` as the body of its single
`fetch`. -/
def GatewayCall.body : GatewayCall → JVal
  | .recognizeFace imageBase64 lat lon =>
    .obj [("image", imageBase64), ("latitude", lat), ("longitude", lon)]
  | .markAttendance userId userName type lat lon locationOk =>
    .obj [("user_id", userId), ("user_name", userName), ("type", .str type),
      ("latitude", lat), ("longitude", lon), ("location_ok", locationOk)]
  | .registerFace userId imageBase64 lat lon =>
    .obj [("user_id", userId), ("image", imageBase64), ("latitude", lat), ("longitude", lon)]

/-- An HTTP response whose body parsed as JSON: `res.ok` and the value of `await res.json()`. -/
structure HttpResponse where
  ok : Bool
  body : JVal
  deriving DecidableEq

/-- The two closing statements shared by `registerFace` and `markAttendance`:
`if (!res.ok) throw new Error(data.error || Failed); return data`. The constructor `Error`
turns its argument into a string; the read `data.error` itself throws on a nullish body. -/
def throwUnlessOk (res : HttpResponse) : Except String JVal :=
  if !res.ok then
    match res.body.prop "error" with
    | .error m => .error m
    | .ok e => .error (e.or (.str "Failed")).toStr
  else .ok res.body

/-- The result of `registerFace` (lines 135-137) for a response with a JSON body. -/
def registerFace (res : HttpResponse) : Except String JVal :=
  throwUnlessOk res

/-- The result of `markAttendance` (lines 169-171) for a response with a JSON body. -/
def markAttendance (res : HttpResponse) : Except String JVal :=
  throwUnlessOk res

/-- The result of `recognizeFace` (line 153) for a response with a JSON body: `res.json()`,
whatever `res.ok`. -/
def recognizeFace (res : HttpResponse) : Except String JVal :=
  .ok res.body

/-! ## `FaceRegistration.jsx` -/

/-- The constant `TARGET_SAMPLES` (line 4). -/
def TARGET_SAMPLES : Nat := 30

/-- The React state of `FaceRegistration` that the handler and the effects read and write. -/
structure EnrollState where
  count : Nat
  status : String
  location : Coords
  deriving DecidableEq

/-- The state of a freshly mounted registration: the arguments of the `useState` calls. -/
def EnrollState.init : EnrollState :=
  { count := 0, status := "", location := { lat := .null, lon := .null } }

/-- The outcome of running `captureAndSend` to completion: the state it leaves and the gateway
calls it issued. -/
structure EnrollRun where
  state : EnrollState
  calls : List GatewayCall
  deriving DecidableEq

/-- The synchronous part of `captureAndSend` (lines 34-43), which writes no state: `none` when
a ref is missing or the video has no width, otherwise the `registerFace` call that is issued
for `user.id`, the frame and the stored location. -/
def captureAndSendStart (s : EnrollState) (user : JVal) (r : Refs) : Option GatewayCall :=
  match r.video with
  | none => none
  | some v =>
    if !r.canvas || v.videoWidth = 0 then none
    else some (.registerFace (user.get "id") (.str (toDataURL v)) s.location.lat s.location.lon)

/-- The rest of `captureAndSend` once the promise has settled (lines 44-48); `count` is the one
of the render the handler was created in, while `setCount` adds one to the current count. -/
def captureAndSendSettle (count : Nat) (s : EnrollState) (reply : Except String JVal) :
    EnrollState :=
  match reply with
  | .ok _ =>
    let text := "Captured " ++ toString (count + 1) ++ "/" ++ toString TARGET_SAMPLES
    { s with count := s.count + 1, status := text }
  | .error m => { s with status := m }

/-- The handler `captureAndSend` run to completion with the gateway answering `reply`. -/
def captureAndSend (s : EnrollState) (user : JVal) (r : Refs) (reply : Except String JVal) :
    EnrollRun :=
  match captureAndSendStart s user r with
  | none => { state := s, calls := [] }
  | some call => { state := captureAndSendSettle s.count s reply, calls := [call] }

/-- The attribute `disabled` of the Capture sample button (line 67). -/
def captureDisabled (s : EnrollState) : Bool :=
  decide (s.count ≥ TARGET_SAMPLES)

/-- A click on the Capture sample button: a disabled button dispatches no click, an enabled one
runs `captureAndSend`. -/
def clickCapture (s : EnrollState) (user : JVal) (r : Refs) (reply : Except String JVal) :
    EnrollRun :=
  if captureDisabled s then { state := s, calls := [] } else captureAndSend s user r reply

/-- A run of `captureAndSend` calls one after the other, each one started after the one before
has settled, with the refs and the gateway answer of each. -/
def captureSequence (s : EnrollState) (user : JVal) :
    List (Refs × Except String JVal) → EnrollState
  | [] => s
  | (r, reply) :: rest => captureSequence (captureAndSend s user r reply).state user rest

/-- Whether a gateway answer is an acknowledgement (the promise resolved). -/
def isAck (reply : Except String JVal) : Bool :=
  match reply with
  | .ok _ => true
  | .error _ => false

/-! ## Effects: geolocation (kiosk lines 13-23, registration lines 14-19) and camera -/

/-- What the host does with a `getCurrentPosition` request: it calls the success callback with
a position, calls the error callback (denied, timed out, failed), or has not answered yet. -/
inductive GeoAnswer where
  | success (lat lon : Int)
  | failure
  | pending
  deriving DecidableEq

/-- The success callback of the kiosk (line 16). -/
def kioskOnPosition (lat lon : Int) (s : KioskState) : KioskState :=
  { s with location := { lat := .num lat, lon := .num lon } }

/-- The error callback of the kiosk (line 17). -/
def kioskOnPositionError (s : KioskState) : KioskState :=
  { s with status := .str "Location not available" }

/-- The function `getLocation` of the kiosk with the callback it leads to, on a host whose
`navigator.geolocation` is `geolocation` (`none` for undefined): the state afterwards, or the
message of the exception that escapes. -/
def getLocation (geolocation : Option GeoAnswer) (s : KioskState) : Except String KioskState :=
  match geolocation with
  | none => .ok s
  | some (.success lat lon) => .ok (kioskOnPosition lat lon s)
  | some .failure => .ok (kioskOnPositionError s)
  | some .pending => .ok s

/-- The success callback of the registration (line 16). -/
def enrollOnPosition (lat lon : Int) (s : EnrollState) : EnrollState :=
  { s with location := { lat := .num lat, lon := .num lon } }

/-- The error callback of the registration (line 17). -/
def enrollOnPositionError (s : EnrollState) : EnrollState :=
  { s with status := "Allow location for first-time registration" }

/-- The location effect of the registration with the callback it leads to: it calls
`navigator.geolocation.getCurrentPosition` without a test, which throws a `TypeError` when
`navigator.geolocation` is undefined. -/
def enrollLocationEffect (geolocation : Option GeoAnswer) (s : EnrollState) :
    Except String EnrollState :=
  match geolocation with
  | none => .error (JVal.typeErrorMessage .undefined "getCurrentPosition")
  | some (.success lat lon) => .ok (enrollOnPosition lat lon s)
  | some .failure => .ok (enrollOnPositionError s)
  | some .pending => .ok s

/-- The `catch` of the camera effect of the kiosk (line 33). -/
def kioskOnCameraRejected (s : KioskState) : KioskState :=
  { s with status := .str "Camera access denied" }

/-- The `catch` of the camera effect of the registration (line 29). -/
def enrollOnCameraRejected (s : EnrollState) : EnrollState :=
  { s with status := "Camera access denied" }

/-- The state of the `getUserMedia` promise. -/
inductive CameraPromise where
  | pending
  | resolved
  | rejected
  deriving DecidableEq

/-- The camera effect of either component (kiosk lines 25-35, registration lines 21-31, the
same text): whether the component is mounted, the promise, whether the variable `s` of the
effect holds the stream, whether an acquired stream has a track that was not stopped, and the
number of gateway calls in flight. -/
structure CameraSession where
  mounted : Bool
  promise : CameraPromise
  s : Bool
  liveTracks : Bool
  inFlight : Nat
  deriving DecidableEq

/-- The camera effect right after mount: `getUserMedia` was called, `s` is undefined. -/
def CameraSession.init : CameraSession :=
  { mounted := true, promise := .pending, s := false, liveTracks := false, inFlight := 0 }

/-- The events of a session that bear on the camera. -/
inductive CameraEvent where
  | resolve
  | reject
  | unmount
  | callStart
  | callFinish
  deriving DecidableEq

/-- One event: `resolve` runs the `then` callback (`s = str`), `reject` the `catch`,
`unmount` the cleanup `if (s) s.getTracks().forEach((t) => t.stop())`; a handler can start a
gateway call while the component is mounted, and a call in flight can finish at any time. -/
def CameraSession.step (c : CameraSession) : CameraEvent → CameraSession
  | .resolve =>
    if c.promise = .pending then { c with promise := .resolved, s := true, liveTracks := true }
    else c
  | .reject => if c.promise = .pending then { c with promise := .rejected } else c
  | .unmount =>
    if c.mounted then { c with mounted := false, liveTracks := if c.s then false else c.liveTracks }
    else c
  | .callStart => if c.mounted then { c with inFlight := c.inFlight + 1 } else c
  | .callFinish => { c with inFlight := c.inFlight - 1 }

/-- The session after a list of events, in order. -/
def CameraSession.run (c : CameraSession) (events : List CameraEvent) : CameraSession :=
  events.foldl CameraSession.step c

/-- Whether the session is unmounted while a stream it acquired still has a running track. -/
def CameraSession.leaked (c : CameraSession) : Bool :=
  !c.mounted && c.liveTracks

/-! ## Sessions as sequences of events -/

/-- What can happen to a mounted kiosk: a geolocation callback, the rejection of the camera
promise, or a handler run to completion. -/
inductive KioskEvent where
  | position (lat lon : Int)
  | positionError
  | cameraRejected
  | recognize (r : Refs) (reply : Except String JVal)
  | mark (type : String) (reply : Except String JVal)

/-- Whether the event is the geolocation success callback. -/
def KioskEvent.isPosition : KioskEvent → Bool
  | .position _ _ => true
  | _ => false

/-- The effect of one event on the kiosk, with the gateway calls it issues. -/
def kioskStep (s : KioskState) : KioskEvent → Run
  | .position lat lon => { state := kioskOnPosition lat lon s, calls := [] }
  | .positionError => { state := kioskOnPositionError s, calls := [] }
  | .cameraRejected => { state := kioskOnCameraRejected s, calls := [] }
  | .recognize r reply => handleRecognize s r reply
  | .mark type reply => handleMark s type reply

/-- The kiosk after a list of events, with all the gateway calls issued on the way. -/
def kioskRun (s : KioskState) : List KioskEvent → Run
  | [] => { state := s, calls := [] }
  | ev :: rest =>
    { state := (kioskRun (kioskStep s ev).state rest).state,
      calls := (kioskStep s ev).calls ++ (kioskRun (kioskStep s ev).state rest).calls }

/-- A registration with calls in flight: the React state, for each outstanding
`captureAndSend` the `count` its closure holds, and the gateway calls issued so far. -/
structure Enrollment where
  state : EnrollState
  pending : List Nat
  calls : List GatewayCall
  deriving DecidableEq

/-- A freshly mounted registration. -/
def Enrollment.init : Enrollment :=
  { state := EnrollState.init, pending := [], calls := [] }

/-- What can happen to a mounted registration: a geolocation callback, the rejection of the
camera promise, a click on Capture sample, or the settling of the outstanding call number `i`
with the answer `reply`. -/
inductive EnrollEvent where
  | position (lat lon : Int)
  | positionError
  | cameraRejected
  | click (r : Refs)
  | settle (i : Nat) (reply : Except String JVal)

/-- Whether the event is the geolocation success callback. -/
def EnrollEvent.isPosition : EnrollEvent → Bool
  | .position _ _ => true
  | _ => false

/-- The effect of one event on the registration of `user`: a click is accepted only while the
button is enabled and then runs `captureAndSend` up to its `await`; `settle` runs the rest of
an outstanding call. -/
def enrollStep (user : JVal) (e : Enrollment) : EnrollEvent → Enrollment
  | .position lat lon => { e with state := enrollOnPosition lat lon e.state }
  | .positionError => { e with state := enrollOnPositionError e.state }
  | .cameraRejected => { e with state := enrollOnCameraRejected e.state }
  | .click r =>
    if captureDisabled e.state then e
    else
      match captureAndSendStart e.state user r with
      | none => e
      | some call =>
        { e with pending := e.pending ++ [e.state.count], calls := e.calls ++ [call] }
  | .settle i reply =>
    match e.pending.get? i with
    | none => e
    | some count =>
      { e with state := captureAndSendSettle count e.state reply,
               pending := e.pending.eraseIdx i }

/-- The registration after a list of events, in order. -/
def enrollRun (user : JVal) (e : Enrollment) (events : List EnrollEvent) : Enrollment :=
  events.foldl (enrollStep user) e

/-- Whether the rendered kiosk shows the text `status`: as the closing paragraph, or as the
body of the result panel. -/
def KioskView.showsStatus (v : KioskView) (status : JVal) : Bool :=
  decide (v.statusLine = some status) ||
    (match v.panel with
      | some (_, .statusText t) => decide (t = status)
      | _ => false)

/-! ## Mounting and rendering the registration (lines 6-12, 51-75) -/

/-- The `user` prop that the Re-register button of the face registry builds from its row
(`AdminDashboard.jsx`, line 282): the id and the name of the row, and nothing else of it. -/
def reRegisterUser (row : JVal) : JVal :=
  .obj [("id", row.get "user_id"), ("name", row.get "name")]

/-- A registration mounted for `user` (`AdminDashboard.jsx`, lines 64-70): every `useState`
starts from its constant argument (lines 9-12), whatever the prop, and mounting issues no
gateway call. -/
def mountRegistration (_user : JVal) : Enrollment :=
  Enrollment.init

/-- The parts of the rendered registration that depend on the state. -/
structure EnrollView where
  overlay : String
  captureDisabled : Bool
  captureLabel : String
  statusLine : Option String
  deriving DecidableEq

/-- The render function of `FaceRegistration`: the text of the video overlay (line 62), the
attribute `disabled` and the label of the Capture sample button (lines 67-68), and the status
paragraph, rendered when the status is not empty (line 72). -/
def renderEnroll (s : EnrollState) : EnrollView :=
  { overlay := "FaceSense Pattern | " ++ toString s.count ++ "/" ++ toString TARGET_SAMPLES ++
      " samples | " ++ (if s.location.lat.truthy then "Location ready" else "Getting location..."),
    captureDisabled := captureDisabled s,
    captureLabel := "Capture sample (" ++ toString s.count ++ "/" ++ toString TARGET_SAMPLES ++ ")",
    statusLine := if s.status = "" then none else some s.status }

/-- Whether the event runs a handler of the kiosk (a click on one of its three buttons). -/
def KioskEvent.isHandler : KioskEvent → Bool
  | .recognize _ _ => true
  | .mark _ _ => true
  | _ => false

/-! ## Concrete states and answers used in the examples -/

/-- Refs of a kiosk whose camera delivers 640x480 frames. -/
def readyRefs : Refs :=
  { video := some { videoWidth := 640, videoHeight := 480, jpeg := "AAAA" }, canvas := true }

/-- Refs of a kiosk whose video element has not produced a frame yet. -/
def noFrameRefs : Refs :=
  { video := some { videoWidth := 0, videoHeight := 0, jpeg := "" }, canvas := true }

/-- The outcome of scenario A: a match inside the campus boundary. -/
def outcomeSuccess : JVal :=
  .obj [("recognized", .bool true), ("confidence", .num 92), ("location_ok", .bool true),
    ("user_id", .num 7), ("name", .str "Ann")]

/-- The outcome of scenario B: a match outside the campus boundary. -/
def outcomeMismatch : JVal :=
  .obj [("recognized", .bool true), ("confidence", .num 88), ("location_ok", .bool false),
    ("user_id", .num 7), ("name", .str "Ann")]

/-- The outcome of scenario C: no match. -/
def outcomeNoMatch : JVal :=
  .obj [("recognized", .bool false), ("message", .str "No match")]

/-- An answer without a match whose message is the text of the mismatch status. -/
def outcomeBorrowedText : JVal :=
  .obj [("recognized", .bool false), ("message", .str "Location mismatch - attendance denied")]

/-- The body the gateway sends back for an accepted mark. -/
def markAck : JVal :=
  .obj [("success", .bool true)]

/-- A kiosk that holds the outcome of scenario A, at (40, -75). -/
def decidedSuccess : KioskState :=
  { result := outcomeSuccess, status := .str "Recognized - Press IN or OUT",
    location := { lat := .num 40, lon := .num (-75) }, capturing := false }

/-- A kiosk that holds the outcome of scenario B. -/
def decidedMismatch : KioskState :=
  { result := outcomeMismatch, status := .str "Location mismatch - attendance denied",
    location := { lat := .num 12, lon := .num 77 }, capturing := false }

/-- The `user` prop of the registration in the examples. -/
def userAnn : JVal :=
  .obj [("id", .num 7), ("name", .str "Ann")]

/-- The body the gateway sends back for an accepted sample. -/
def sampleAck : JVal :=
  .obj [("success", .bool true)]

/-- Thirty-one clicks on Capture sample, every one before any answer has arrived. -/
def burstOfClicks : List EnrollEvent :=
  List.replicate 31 (.click readyRefs)

/-- The thirty-one clicks, then the acknowledgement of each of the thirty-one calls. -/
def burstThenAcks : List EnrollEvent :=
  burstOfClicks ++ List.replicate 31 (.settle 0 (.ok sampleAck))

/-- A registration that has collected all its samples. -/
def enrollComplete : EnrollState :=
  { count := 30, status := "Captured 30/30", location := { lat := .num 40, lon := .num (-75) } }

/-- The kiosk of scenario A after Mark IN was accepted by the gateway. -/
def markedIn : KioskState :=
  (handleMark decidedSuccess "in" (.ok markAck)).state

/-- A kiosk session in which location is denied, then scenario A runs and Mark IN is pressed. -/
def kioskLocationDenied : List KioskEvent :=
  [.positionError, .recognize readyRefs (.ok outcomeSuccess), .mark "in" (.ok markAck)]

/-- A registration in which location is denied, then one sample is captured and accepted. -/
def enrollLocationDenied : List EnrollEvent :=
  [.positionError, .click readyRefs, .settle 0 (.ok sampleAck)]

/-- A response that is not OK and whose body is the JSON text `null`. -/
def errorWithNullBody : HttpResponse :=
  { ok := false, body := .null }

/-- A response that is not OK and carries an error text. -/
def errorAlreadyMarked : HttpResponse :=
  { ok := false, body := .obj [("error", .str "Already marked")] }

/-- A row of the face registry for a subject of whom the server holds twelve samples. -/
def registryRow : JVal :=
  .obj [("user_id", .num 7), ("name", .str "Ann"), ("email", .str "ann@example.org"),
    ("role", .str "student"), ("samples_count", .num 12)]

/-- A registration with twelve samples collected, located at (40, -75). -/
def enrollMidway : EnrollState :=
  { count := 12, status := "Captured 12/30", location := { lat := .num 40, lon := .num (-75) } }

/-- A response that is not OK and carries only an error text. -/
def errorServer : HttpResponse :=
  { ok := false, body := .obj [("error", .str "Model not trained")] }

/-- What can happen while a gateway call of the kiosk is outstanding: geolocation answers,
the camera promise is rejected. -/
def whileInFlight : List KioskEvent :=
  [.position 40 (-75), .positionError, .cameraRejected]

/-- A kiosk on the equator: the geolocation success callback stored latitude 0. -/
def kioskOnEquator : KioskState :=
  kioskOnPosition 0 10 KioskState.init

/-- A registration on the equator. -/
def enrollOnEquator : EnrollState :=
  enrollOnPosition 0 10 EnrollState.init

/-- Refs of a registration whose canvas is not mounted. -/
def noCanvasRefs : Refs :=
  { video := some { videoWidth := 640, videoHeight := 480, jpeg := "AAAA" }, canvas := false }

/-! ## Lemmas on values, frames and the two handlers -/

theorem JVal.optGet_eq_get (v : JVal) (k : String) : v.optGet k = v.get k := by
  cases v <;> rfl

theorem JVal.get_of_isNullish {v : JVal} (h : v.isNullish = true) (k : String) :
    v.get k = .undefined := by
  cases v <;> first | rfl | cases h

theorem JVal.prop_of_truthy_get {v : JVal} {k : String} (h : (v.get k).truthy = true)
    (j : String) : v.prop j = .ok (v.get j) := by
  cases v <;> first | rfl | cases h

theorem toDataURL_ne_empty (v : VideoElement) : toDataURL v ≠ "" := by
  unfold toDataURL
  split
  · decide
  · intro h
    have hlen := congrArg String.length h
    rw [String.length_append] at hlen
    have h23 : "data:image/jpeg;base64,".length = 23 := by decide
    rw [h23] at hlen
    simp at hlen

theorem captureFrame_eq_null_iff (r : Refs) :
    captureFrame r = .null ↔
      r.video = none ∨ r.canvas = false ∨ ∃ v, r.video = some v ∧ v.videoWidth = 0 := by
  unfold captureFrame
  cases hv : r.video with
  | none => simp
  | some v =>
    cases hc : r.canvas <;> by_cases hw : v.videoWidth = 0 <;> simp [hw]

theorem captureFrame_truthy (r : Refs) (h : captureFrame r ≠ .null) :
    (captureFrame r).truthy = true := by
  unfold captureFrame at h ⊢
  cases hv : r.video with
  | none => simp [hv] at h
  | some v =>
    simp only [hv] at h ⊢
    split
    · rename_i hc
      simp [hc] at h
    · simp [JVal.truthy, toDataURL_ne_empty]

theorem handleRecognize_of_no_frame (s : KioskState) (r : Refs) (reply : Except String JVal)
    (h : captureFrame r = .null) :
    handleRecognize s r reply = { state := s, calls := [] } := by
  simp [handleRecognize, handleRecognizeStart, h, JVal.truthy]

theorem handleRecognize_of_frame (s : KioskState) (r : Refs) (reply : Except String JVal)
    (h : captureFrame r ≠ .null) :
    handleRecognize s r reply =
      { state := handleRecognizeSettle
          { s with capturing := true, status := .str "Recognizing...", result := .null } reply,
        calls := [.recognizeFace (captureFrame r) s.location.lat s.location.lon] } := by
  simp [handleRecognize, handleRecognizeStart, captureFrame_truthy r h]

theorem handleRecognizeSettle_error (s : KioskState) (m : String) :
    handleRecognizeSettle s (.error m) = { s with status := .str m, capturing := false } := rfl

theorem handleRecognizeSettle_nullish (s : KioskState) (data : JVal)
    (h : data.isNullish = true) :
    handleRecognizeSettle s (.ok data) =
      { s with result := data, status := .str (data.typeErrorMessage "recognized"),
               capturing := false } := by
  simp [handleRecognizeSettle, recognizeTry, JVal.prop, h]

theorem handleRecognizeSettle_recognized (s : KioskState) (data : JVal)
    (h : (data.get "recognized").truthy = true) :
    handleRecognizeSettle s (.ok data) =
      { s with result := data,
               status := .str (if (data.get "location_ok").truthy
                 then "Recognized - Press IN or OUT"
                 else "Location mismatch - attendance denied"),
               capturing := false } := by
  simp [handleRecognizeSettle, recognizeTry, JVal.prop_of_truthy_get h, h]

theorem handleRecognizeSettle_unrecognized (s : KioskState) (data : JVal)
    (hn : data.isNullish = false) (h : (data.get "recognized").truthy = false) :
    handleRecognizeSettle s (.ok data) =
      { s with result := data,
               status := (data.get "message").or (.str "Face not recognized"),
               capturing := false } := by
  simp [handleRecognizeSettle, recognizeTry, JVal.prop, hn, h]

theorem handleMarkStart_eq_none_iff (s : KioskState) (type : String) :
    handleMarkStart s type = none ↔
      (s.result.get "recognized").truthy = false ∨
        (s.result.get "location_ok").truthy = false := by
  cases hr : (s.result.get "recognized").truthy <;>
    cases hl : (s.result.get "location_ok").truthy <;>
    simp [handleMarkStart, JVal.optGet_eq_get, hr, hl]

theorem handleMark_of_guard (s : KioskState) (type : String) (reply : Except String JVal)
    (hr : (s.result.get "recognized").truthy = true)
    (hl : (s.result.get "location_ok").truthy = true) :
    handleMark s type reply =
      { state := handleMarkSettle s.result type { s with capturing := true } reply,
        calls := [.markAttendance (s.result.get "user_id") (s.result.get "name") type
          s.location.lat s.location.lon (.bool true)] } := by
  simp [handleMark, handleMarkStart, JVal.optGet_eq_get, hr, hl]

theorem handleMark_of_no_guard (s : KioskState) (type : String) (reply : Except String JVal)
    (h : (s.result.get "recognized").truthy = false ∨
      (s.result.get "location_ok").truthy = false) :
    handleMark s type reply = { state := s, calls := [] } := by
  simp [handleMark, (handleMarkStart_eq_none_iff s type).2 h]

theorem handleMark_calls_eq_nil_iff (s : KioskState) (type : String)
    (reply : Except String JVal) :
    (handleMark s type reply).calls = [] ↔
      ¬ ((s.result.get "recognized").truthy = true ∧
        (s.result.get "location_ok").truthy = true) := by
  by_cases hr : (s.result.get "recognized").truthy = true
  · by_cases hl : (s.result.get "location_ok").truthy = true
    · simp [handleMark_of_guard s type reply hr hl, hr, hl]
    · simp [handleMark_of_no_guard s type reply (Or.inr (by simpa using hl)), hl]
  · simp [handleMark_of_no_guard s type reply (Or.inl (by simpa using hr)), hr]

/-! ## The claims -/

/-- C1: in every kiosk state whose stored result is null, or whose `recognized` is false (or
otherwise falsy), or whose `location_ok` is false (or otherwise falsy), `handleMark(type)`
issues no gateway call and leaves the whole state (result, status, capturing, location)
unchanged, whatever the type. -/
theorem C1_handleMark_rejected (s : KioskState) (type : String) (reply : Except String JVal)
    (h : s.result = .null ∨ (s.result.get "recognized").truthy = false ∨
      (s.result.get "location_ok").truthy = false) :
    (handleMark s type reply).calls = [] ∧ (handleMark s type reply).state = s := by
  have hg : (s.result.get "recognized").truthy = false ∨
      (s.result.get "location_ok").truthy = false := by
    rcases h with h | h | h
    · left
      rw [h]
      rfl
    · exact Or.inl h
    · exact Or.inr h
  rw [handleMark_of_no_guard s type reply hg]
  exact ⟨rfl, rfl⟩

/-- Witness of C1: scenario B, a match outside the campus boundary, then Mark IN. -/
theorem C1_handleMark_rejected_witness :
    (decidedMismatch.result = .null ∨
        (decidedMismatch.result.get "recognized").truthy = false ∨
        (decidedMismatch.result.get "location_ok").truthy = false) ∧
      (handleMark decidedMismatch "in" (.ok markAck)).calls = [] ∧
      (handleMark decidedMismatch "in" (.ok markAck)).state = decidedMismatch :=
  ⟨by decide, C1_handleMark_rejected decidedMismatch "in" (.ok markAck) (by decide)⟩

/-- Counterexample to C2: the gateway answers without a match and with a message that reads
like the mismatch status; the status then is the mismatch text although
`data.recognized && !data.location_ok` is false. -/
theorem C2_counterexample :
    captureFrame readyRefs ≠ .null ∧
      ¬ ((handleRecognize KioskState.init readyRefs (.ok outcomeBorrowedText)).state.status =
            .str "Location mismatch - attendance denied" ↔
          ((outcomeBorrowedText.get "recognized").truthy = true ∧
            (outcomeBorrowedText.get "location_ok").truthy = false)) := by
  decide

/-- C2, amended: for every gateway response `data` received by `handleRecognize` (frame ready,
no transport error), a following `handleMark` issues a call iff `data.recognized &&
data.location_ok`; when `data.recognized` is truthy the status is the press-IN-or-OUT text if
`data.location_ok` is truthy and the mismatch text otherwise; when it is not, the status is
`data.message || Face not recognized` (the message of the `TypeError` when `data` is nullish);
and when `data.message` is neither of the two status texts, each of the two texts is the status
exactly in its case. -/
theorem C2_classification (s : KioskState) (r : Refs) (data : JVal)
    (hf : captureFrame r ≠ .null) :
    (∀ type reply,
        (handleMark (handleRecognize s r (.ok data)).state type reply).calls ≠ [] ↔
          ((data.get "recognized").truthy = true ∧ (data.get "location_ok").truthy = true)) ∧
      ((data.get "recognized").truthy = true → (data.get "location_ok").truthy = true →
        (handleRecognize s r (.ok data)).state.status = .str "Recognized - Press IN or OUT") ∧
      ((data.get "recognized").truthy = true → (data.get "location_ok").truthy = false →
        (handleRecognize s r (.ok data)).state.status =
          .str "Location mismatch - attendance denied") ∧
      ((data.get "recognized").truthy = false →
        (handleRecognize s r (.ok data)).state.status =
          if data.isNullish then .str (data.typeErrorMessage "recognized")
          else (data.get "message").or (.str "Face not recognized")) ∧
      (data.get "message" ≠ .str "Recognized - Press IN or OUT" →
        data.get "message" ≠ .str "Location mismatch - attendance denied" →
        ((handleRecognize s r (.ok data)).state.status = .str "Recognized - Press IN or OUT" ↔
            ((data.get "recognized").truthy = true ∧
              (data.get "location_ok").truthy = true)) ∧
          ((handleRecognize s r (.ok data)).state.status =
              .str "Location mismatch - attendance denied" ↔
            ((data.get "recognized").truthy = true ∧
              (data.get "location_ok").truthy = false))) := by
  rw [handleRecognize_of_frame s r (.ok data) hf]
  simp only [handleMark_calls_eq_nil_iff, ne_eq, not_not]
  cases hr : (data.get "recognized").truthy
  · cases hn : data.isNullish
    · rw [handleRecognizeSettle_unrecognized _ _ hn hr]
      refine ⟨?_, ?_, ?_, ?_, ?_⟩
      · simp [hr]
      · simp
      · simp
      · simp
      · intro h1 h2
        cases hm : (data.get "message").truthy
        · simp [JVal.or, hm]
        · simp [JVal.or, hm, h1, h2]
    · rw [handleRecognizeSettle_nullish _ _ hn]
      have hg := JVal.get_of_isNullish hn
      refine ⟨?_, ?_, ?_, ?_, ?_⟩
      · simp [hg, JVal.truthy]
      · simp
      · simp
      · simp
      · intro _ _
        have e1 : JVal.str (data.typeErrorMessage "recognized") ≠
            .str "Recognized - Press IN or OUT" := by
          cases data <;> first | decide | cases hn
        have e2 : JVal.str (data.typeErrorMessage "recognized") ≠
            .str "Location mismatch - attendance denied" := by
          cases data <;> first | decide | cases hn
        simp [e1, e2]
  · rw [handleRecognizeSettle_recognized _ _ hr]
    cases hl : (data.get "location_ok").truthy <;> simp [hr, hl]

/-- Witness of C2: scenario A, whose message is absent. -/
theorem C2_classification_witness :
    captureFrame readyRefs ≠ .null ∧
      (handleRecognize KioskState.init readyRefs (.ok outcomeSuccess)).state.status =
        .str "Recognized - Press IN or OUT" ∧
      ((handleRecognize KioskState.init readyRefs (.ok outcomeSuccess)).state.status =
          .str "Location mismatch - attendance denied" ↔
        ((outcomeSuccess.get "recognized").truthy = true ∧
          (outcomeSuccess.get "location_ok").truthy = false)) :=
  ⟨by decide,
    (C2_classification KioskState.init readyRefs outcomeSuccess (by decide)).2.1
      (by decide) (by decide),
    ((C2_classification KioskState.init readyRefs outcomeSuccess (by decide)).2.2.2.2
      (by decide) (by decide)).2⟩

/-- Counterexample to C3: the kiosk holds the outcome of scenario A and the video has no frame
yet; after `handleRecognize` the stored result is still that earlier outcome (neither null nor
anything this call returned), and a following Mark IN is sent for it. -/
theorem C3_counterexample :
    captureFrame noFrameRefs = .null ∧
      decidedSuccess.result ≠ .null ∧
      (handleRecognize decidedSuccess noFrameRefs (.ok outcomeNoMatch)).state.result =
        decidedSuccess.result ∧
      ¬ ((handleRecognize decidedSuccess noFrameRefs (.ok outcomeNoMatch)).state.result = .null ∨
          (handleRecognize decidedSuccess noFrameRefs (.ok outcomeNoMatch)).state.result =
            outcomeNoMatch) ∧
      (handleMark (handleRecognize decidedSuccess noFrameRefs (.ok outcomeNoMatch)).state
          "in" (.ok markAck)).calls =
        [.markAttendance (.num 7) (.str "Ann") "in" (.num 40) (.num (-75)) (.bool true)] := by
  decide

/-- C3, amended: for every kiosk state and every invocation of `handleRecognize` for which
`captureFrame` yields a frame, whatever the gateway answers, the previous outcome is
invalidated: the stored result is null while the call is outstanding, and after the call it is
the outcome returned by this call, or null when the call failed. -/
theorem C3_recognize_invalidates (s : KioskState) (r : Refs) (reply : Except String JVal)
    (hf : captureFrame r ≠ .null) :
    (∃ s1 call, handleRecognizeStart s r = some (s1, call) ∧ s1.result = .null) ∧
      (handleRecognize s r reply).state.result =
        (match reply with
          | .ok data => data
          | .error _ => .null) := by
  constructor
  · refine ⟨{ s with capturing := true, status := .str "Recognizing...", result := .null },
      .recognizeFace (captureFrame r) s.location.lat s.location.lon, ?_, rfl⟩
    simp [handleRecognizeStart, captureFrame_truthy r hf]
  · rw [handleRecognize_of_frame s r reply hf]
    cases reply with
    | error m => rfl
    | ok data =>
      cases hn : data.isNullish
      · cases hr : (data.get "recognized").truthy
        · rw [handleRecognizeSettle_unrecognized _ _ hn hr]
        · rw [handleRecognizeSettle_recognized _ _ hr]
      · rw [handleRecognizeSettle_nullish _ _ hn]

/-- Witness of C3: scenario A is stored, the camera is ready, the gateway finds no match. -/
theorem C3_recognize_invalidates_witness :
    captureFrame readyRefs ≠ .null ∧
      (handleRecognize decidedSuccess readyRefs (.ok outcomeNoMatch)).state.result =
        outcomeNoMatch :=
  ⟨by decide, (C3_recognize_invalidates decidedSuccess readyRefs (.ok outcomeNoMatch)
    (by decide)).2⟩

/-- C4: for every kiosk state with a ready frame, if the `recognizeFace` call made by
`handleRecognize` fails with an error whose message is `m`, then afterwards the stored result
is null, status is `m`, capturing is false, and every `handleMark` is rejected (no call, no
change). -/
theorem C4_recognize_transport_error (s : KioskState) (r : Refs) (m : String)
    (hf : captureFrame r ≠ .null) :
    (handleRecognize s r (.error m)).calls =
        [.recognizeFace (captureFrame r) s.location.lat s.location.lon] ∧
      (handleRecognize s r (.error m)).state.result = .null ∧
      (handleRecognize s r (.error m)).state.status = .str m ∧
      (handleRecognize s r (.error m)).state.capturing = false ∧
      ∀ type reply,
        (handleMark (handleRecognize s r (.error m)).state type reply).calls = [] ∧
          (handleMark (handleRecognize s r (.error m)).state type reply).state =
            (handleRecognize s r (.error m)).state := by
  rw [handleRecognize_of_frame s r (.error m) hf, handleRecognizeSettle_error]
  refine ⟨rfl, rfl, rfl, rfl, fun type reply => ?_⟩
  rw [handleMark_of_no_guard _ type reply (Or.inl (by rfl))]
  exact ⟨rfl, rfl⟩

/-- Witness of C4: the network is down while scenario A is stored. -/
theorem C4_recognize_transport_error_witness :
    captureFrame readyRefs ≠ .null ∧
      (handleRecognize decidedSuccess readyRefs (.error "Failed to fetch")).state.result =
        .null ∧
      (handleRecognize decidedSuccess readyRefs (.error "Failed to fetch")).state.status =
        .str "Failed to fetch" :=
  ⟨by decide,
    (C4_recognize_transport_error decidedSuccess readyRefs "Failed to fetch" (by decide)).2.1,
    (C4_recognize_transport_error decidedSuccess readyRefs "Failed to fetch" (by decide)).2.2.1⟩

/-- C5: for every kiosk state whose stored result has `recognized` and `location_ok` true
(truthy), if the `markAttendance` call made by `handleMark(type)` fails with an error whose
message is `m`, then afterwards status is exactly `m`, the stored result and the location are
unchanged, capturing is false, and `handleMark` invoked again issues the call again. -/
theorem C5_mark_transport_error (s : KioskState) (type m : String)
    (hr : (s.result.get "recognized").truthy = true)
    (hl : (s.result.get "location_ok").truthy = true) :
    (handleMark s type (.error m)).state.status = .str m ∧
      (handleMark s type (.error m)).state.result = s.result ∧
      (handleMark s type (.error m)).state.location = s.location ∧
      (handleMark s type (.error m)).state.capturing = false ∧
      ∀ type2 reply,
        (handleMark (handleMark s type (.error m)).state type2 reply).calls =
          [.markAttendance (s.result.get "user_id") (s.result.get "name") type2
            s.location.lat s.location.lon (.bool true)] := by
  rw [handleMark_of_guard s type (.error m) hr hl]
  refine ⟨rfl, rfl, rfl, rfl, fun type2 reply => ?_⟩
  exact congrArg Run.calls
    (handleMark_of_guard (handleMarkSettle s.result type { s with capturing := true } (.error m))
      type2 reply hr hl)

/-- Witness of C5: scenario A, then Mark IN answered by a gateway error. -/
theorem C5_mark_transport_error_witness :
    (decidedSuccess.result.get "recognized").truthy = true ∧
      (decidedSuccess.result.get "location_ok").truthy = true ∧
      (handleMark decidedSuccess "in" (.error "Already marked")).state.status =
        .str "Already marked" ∧
      (handleMark decidedSuccess "in" (.error "Already marked")).state.result =
        decidedSuccess.result :=
  ⟨by decide, by decide,
    (C5_mark_transport_error decidedSuccess "in" "Already marked" (by decide) (by decide)).1,
    (C5_mark_transport_error decidedSuccess "in" "Already marked" (by decide) (by decide)).2.1⟩

/-- C6: for every kiosk state whose stored result has `recognized` and `location_ok` true
(truthy) and the name `n`, if the `markAttendance` call succeeds then after `handleMark(type)`
status is `n`, then ` marked `, then the type in upper case, then ` successfully`; for the two
types the kiosk uses that is `<n> marked IN successfully` for `in` and `<n> marked OUT
successfully` for `out`. -/
theorem C6_mark_success_status (s : KioskState) (type n : String) (data : JVal)
    (hr : (s.result.get "recognized").truthy = true)
    (hl : (s.result.get "location_ok").truthy = true)
    (hn : s.result.get "name" = .str n) :
    (handleMark s type (.ok data)).state.status =
        .str (n ++ " marked " ++ toUpperCase type ++ " successfully") ∧
      (type = "in" →
        (handleMark s type (.ok data)).state.status = .str (n ++ " marked IN successfully")) ∧
      (type = "out" →
        (handleMark s type (.ok data)).state.status =
          .str (n ++ " marked OUT successfully")) := by
  have h : (handleMark s type (.ok data)).state.status =
      .str (n ++ " marked " ++ toUpperCase type ++ " successfully") := by
    rw [handleMark_of_guard s type (.ok data) hr hl]
    simp [handleMarkSettle, hn, JVal.toStr]
  refine ⟨h, fun hi => ?_, fun ho => ?_⟩
  · rw [h, hi, String.append_assoc, String.append_assoc]
    rfl
  · rw [h, ho, String.append_assoc, String.append_assoc]
    rfl

/-- Witness of C6: scenario A, then Mark IN accepted by the gateway. -/
theorem C6_mark_success_status_witness :
    (decidedSuccess.result.get "recognized").truthy = true ∧
      (decidedSuccess.result.get "location_ok").truthy = true ∧
      decidedSuccess.result.get "name" = .str "Ann" ∧
      (handleMark decidedSuccess "in" (.ok markAck)).state.status =
        .str ("Ann" ++ " marked IN successfully") :=
  ⟨by decide, by decide, by decide,
    (C6_mark_success_status decidedSuccess "in" "Ann" markAck (by decide) (by decide)
      (by decide)).2.1 rfl⟩

/-- Counterexample to C7: scenario A, Mark IN accepted by the gateway; the outcome is still
stored afterwards, and Mark OUT pressed next, without a new recognition, is sent to the
gateway. -/
theorem C7_counterexample :
    (handleMark decidedSuccess "in" (.ok markAck)).calls =
        [.markAttendance (.num 7) (.str "Ann") "in" (.num 40) (.num (-75)) (.bool true)] ∧
      (handleMark decidedSuccess "in" (.ok markAck)).state.result = outcomeSuccess ∧
      (handleMark decidedSuccess "in" (.ok markAck)).state.result ≠ .null ∧
      (handleMark (handleMark decidedSuccess "in" (.ok markAck)).state "out"
          (.ok markAck)).calls =
        [.markAttendance (.num 7) (.str "Ann") "out" (.num 40) (.num (-75)) (.bool true)] ∧
      (handleMark (handleMark decidedSuccess "in" (.ok markAck)).state "out"
          (.ok markAck)).calls ≠ [] := by
  decide

/-- C7, amended: after a `handleMark` call whose gateway call succeeded, the stored outcome and
the location are unchanged and capturing is false, so the outcome is still live: a second
`handleMark` invoked without an intervening `handleRecognize` passes the guard and issues one
`markAttendance` call for the same subject. -/
theorem C7_mark_success_keeps_outcome (s : KioskState) (type : String) (data : JVal)
    (hr : (s.result.get "recognized").truthy = true)
    (hl : (s.result.get "location_ok").truthy = true) :
    (handleMark s type (.ok data)).state.result = s.result ∧
      (handleMark s type (.ok data)).state.location = s.location ∧
      (handleMark s type (.ok data)).state.capturing = false ∧
      ∀ type2 reply,
        (handleMark (handleMark s type (.ok data)).state type2 reply).calls =
          [.markAttendance (s.result.get "user_id") (s.result.get "name") type2
            s.location.lat s.location.lon (.bool true)] := by
  rw [handleMark_of_guard s type (.ok data) hr hl]
  refine ⟨rfl, rfl, rfl, fun type2 reply => ?_⟩
  exact congrArg Run.calls
    (handleMark_of_guard (handleMarkSettle s.result type { s with capturing := true } (.ok data))
      type2 reply hr hl)

/-- Witness of C7: scenario A, Mark IN accepted, then Mark OUT. -/
theorem C7_mark_success_keeps_outcome_witness :
    (decidedSuccess.result.get "recognized").truthy = true ∧
      (decidedSuccess.result.get "location_ok").truthy = true ∧
      (handleMark decidedSuccess "in" (.ok markAck)).state.result = decidedSuccess.result ∧
      (handleMark (handleMark decidedSuccess "in" (.ok markAck)).state "out"
          (.error "Already marked")).calls =
        [.markAttendance (decidedSuccess.result.get "user_id")
          (decidedSuccess.result.get "name") "out" decidedSuccess.location.lat
          decidedSuccess.location.lon (.bool true)] :=
  ⟨by decide, by decide,
    (C7_mark_success_keeps_outcome decidedSuccess "in" markAck (by decide) (by decide)).1,
    (C7_mark_success_keeps_outcome decidedSuccess "in" markAck (by decide) (by decide)).2.2.2
      "out" (.error "Already marked")⟩

/-- C8: for every kiosk state with no stored outcome, if the video element or the canvas is
missing, or `videoWidth` is 0, then `captureFrame` yields no frame and `handleRecognize` issues
no `recognizeFace` call and leaves result (null) and capturing as they were. -/
theorem C8_no_frame_no_call (s : KioskState) (r : Refs) (reply : Except String JVal)
    (hidle : s.result = .null)
    (h : r.video = none ∨ r.canvas = false ∨ ∃ v, r.video = some v ∧ v.videoWidth = 0) :
    captureFrame r = .null ∧
      (handleRecognize s r reply).calls = [] ∧
      (handleRecognize s r reply).state.result = .null ∧
      (handleRecognize s r reply).state.capturing = s.capturing := by
  have hc : captureFrame r = .null := (captureFrame_eq_null_iff r).2 h
  rw [handleRecognize_of_no_frame s r reply hc]
  exact ⟨hc, rfl, hidle, rfl⟩

/-- Witness of C8: a fresh kiosk whose video has no frame yet. -/
theorem C8_no_frame_no_call_witness :
    KioskState.init.result = .null ∧
      (handleRecognize KioskState.init noFrameRefs (.ok outcomeSuccess)).calls = [] ∧
      (handleRecognize KioskState.init noFrameRefs (.ok outcomeSuccess)).state.result = .null :=
  ⟨rfl,
    (C8_no_frame_no_call KioskState.init noFrameRefs (.ok outcomeSuccess) rfl
      (Or.inr (Or.inr ⟨_, rfl, rfl⟩))).2.1,
    (C8_no_frame_no_call KioskState.init noFrameRefs (.ok outcomeSuccess) rfl
      (Or.inr (Or.inr ⟨_, rfl, rfl⟩))).2.2.1⟩

/-- Counterexample to C9: on a fresh kiosk whose video has no frame yet, the status after
`handleRecognize` is the empty text; and after a mark it is still the message of the mark. -/
theorem C9_counterexample :
    captureFrame noFrameRefs = .null ∧
      (handleRecognize KioskState.init noFrameRefs (.ok outcomeSuccess)).state.status =
        .str "" ∧
      (handleRecognize KioskState.init noFrameRefs (.ok outcomeSuccess)).state.status.truthy =
        false ∧
      (handleRecognize (handleMark decidedSuccess "in" (.ok markAck)).state noFrameRefs
          (.ok outcomeSuccess)).state.status = .str "Ann marked IN successfully" := by
  decide

/-- C9, amended: for every kiosk state, if `captureFrame` yields no frame then
`handleRecognize` writes nothing on the status channel: after the call status is what it was
before the call. -/
theorem C9_no_frame_status_unchanged (s : KioskState) (r : Refs) (reply : Except String JVal)
    (h : captureFrame r = .null) :
    (handleRecognize s r reply).state.status = s.status := by
  rw [handleRecognize_of_no_frame s r reply h]

/-- Witness of C9: scenario B is on display and the video has no frame. -/
theorem C9_no_frame_status_unchanged_witness :
    captureFrame noFrameRefs = .null ∧
      (handleRecognize decidedMismatch noFrameRefs (.ok outcomeSuccess)).state.status =
        decidedMismatch.status :=
  ⟨by decide,
    C9_no_frame_status_unchanged decidedMismatch noFrameRefs (.ok outcomeSuccess) (by decide)⟩

/-- C10: for every gateway response `data` with `data.recognized = false` received by
`handleRecognize` (frame ready): the stored result becomes `data`; status is `data.message`
when that is truthy, in particular when it is a non-empty string, and `Face not recognized`
otherwise, in particular when the message is absent or the empty string; and the Mark IN and
Mark OUT buttons are not rendered. -/
theorem C10_unrecognized (s : KioskState) (r : Refs) (data : JVal)
    (hf : captureFrame r ≠ .null) (h : data.get "recognized" = .bool false) :
    (handleRecognize s r (.ok data)).state.result = data ∧
      (handleRecognize s r (.ok data)).state.status =
        (if (data.get "message").truthy then data.get "message"
          else .str "Face not recognized") ∧
      (∀ m, data.get "message" = .str m → m ≠ "" →
        (handleRecognize s r (.ok data)).state.status = .str m) ∧
      (data.get "message" = .undefined ∨ data.get "message" = .str "" →
        (handleRecognize s r (.ok data)).state.status = .str "Face not recognized") ∧
      (render (handleRecognize s r (.ok data)).state).markButtons = none := by
  have hn : data.isNullish = false := by
    cases hd : data.isNullish
    · rfl
    · rw [JVal.get_of_isNullish hd] at h
      cases h
  have hr : (data.get "recognized").truthy = false := by
    rw [h]
    rfl
  rw [handleRecognize_of_frame s r (.ok data) hf, handleRecognizeSettle_unrecognized _ _ hn hr]
  refine ⟨rfl, rfl, fun m hm hne => ?_, fun hm => ?_, ?_⟩
  · simp [JVal.or, hm, JVal.truthy, hne]
  · rcases hm with hm | hm <;> simp [JVal.or, hm, JVal.truthy]
  · simp [render, markButtonsRendered, JVal.optGet_eq_get, hr]

/-- Witness of C10: scenario C, whose message is `No match`. -/
theorem C10_unrecognized_witness :
    captureFrame readyRefs ≠ .null ∧
      outcomeNoMatch.get "recognized" = .bool false ∧
      (handleRecognize KioskState.init readyRefs (.ok outcomeNoMatch)).state.status =
        .str "No match" ∧
      (render (handleRecognize KioskState.init readyRefs (.ok outcomeNoMatch)).state).markButtons
        = none :=
  ⟨by decide, by decide,
    (C10_unrecognized KioskState.init readyRefs outcomeNoMatch (by decide) (by decide)).2.2.1
      "No match" (by decide) (by decide),
    (C10_unrecognized KioskState.init readyRefs outcomeNoMatch (by decide)
      (by decide)).2.2.2.2⟩

/-! ## Lemmas on the registration -/

theorem captureAndSendStart_of_frame (s : EnrollState) (user : JVal) (r : Refs)
    (h : captureFrame r ≠ .null) :
    captureAndSendStart s user r =
      some (.registerFace (user.get "id") (captureFrame r) s.location.lat s.location.lon) := by
  unfold captureFrame at h ⊢
  unfold captureAndSendStart
  cases hv : r.video with
  | none => simp [hv] at h
  | some v =>
    simp only [hv] at h ⊢
    split
    · rename_i hc
      simp [hc] at h
    · rfl

theorem captureAndSendStart_of_no_frame (s : EnrollState) (user : JVal) (r : Refs)
    (h : captureFrame r = .null) : captureAndSendStart s user r = none := by
  unfold captureFrame at h
  unfold captureAndSendStart
  cases hv : r.video with
  | none => rfl
  | some v =>
    simp only [hv] at h ⊢
    split
    · rfl
    · rename_i hc
      simp [hc] at h

theorem captureAndSend_of_frame (s : EnrollState) (user : JVal) (r : Refs)
    (reply : Except String JVal) (h : captureFrame r ≠ .null) :
    captureAndSend s user r reply =
      { state := captureAndSendSettle s.count s reply,
        calls := [.registerFace (user.get "id") (captureFrame r) s.location.lat
          s.location.lon] } := by
  simp [captureAndSend, captureAndSendStart_of_frame s user r h]

theorem captureAndSend_of_no_frame (s : EnrollState) (user : JVal) (r : Refs)
    (reply : Except String JVal) (h : captureFrame r = .null) :
    captureAndSend s user r reply = { state := s, calls := [] } := by
  simp [captureAndSend, captureAndSendStart_of_no_frame s user r h]

theorem captureAndSendSettle_count (count : Nat) (s : EnrollState)
    (reply : Except String JVal) :
    (captureAndSendSettle count s reply).count = s.count + (if isAck reply then 1 else 0) := by
  cases reply <;> rfl

theorem captureSequence_count (user : JVal) (steps : List (Refs × Except String JVal)) :
    ∀ s : EnrollState, (∀ st ∈ steps, captureFrame st.1 ≠ .null) →
      (captureSequence s user steps).count =
        s.count + (steps.filter (fun st => isAck st.2)).length := by
  induction steps with
  | nil => intro s _; rfl
  | cons st rest ih =>
    intro s h
    obtain ⟨r, reply⟩ := st
    have hr : captureFrame r ≠ .null := h (r, reply) (List.mem_cons_self _ _)
    have hrest : ∀ st ∈ rest, captureFrame st.1 ≠ .null :=
      fun st hst => h st (List.mem_cons_of_mem _ hst)
    rw [captureSequence, ih _ hrest, captureAndSend_of_frame s user r reply hr]
    simp only [captureAndSendSettle_count, List.filter_cons]
    cases reply
    · simp [isAck]
    · simp [isAck]
      omega

/-! ## The claims on the registration, the camera and the rendered status -/

/-- C11: for every enrollment state with a ready frame and every outcome of the `registerFace`
call made by `captureAndSend`: an acknowledged call adds exactly 1 to count, a failed call
(rejected promise, or a response that is not OK) leaves count unchanged, so count never
decreases; and from the initial count 0 the count after any sequence of sequential
`captureAndSend` calls is the number of acknowledged submissions. -/
theorem C11_count_tracks_acks (s : EnrollState) (user : JVal) (r : Refs)
    (hf : captureFrame r ≠ .null) :
    (∀ data, (captureAndSend s user r (.ok data)).state.count = s.count + 1) ∧
      (∀ body, (captureAndSend s user r (registerFace ⟨true, body⟩)).state.count =
        s.count + 1) ∧
      (∀ m, (captureAndSend s user r (.error m)).state.count = s.count) ∧
      (∀ body, (captureAndSend s user r (registerFace ⟨false, body⟩)).state.count = s.count) ∧
      (∀ reply, s.count ≤ (captureAndSend s user r reply).state.count) ∧
      (∀ steps : List (Refs × Except String JVal),
        (∀ st ∈ steps, captureFrame st.1 ≠ .null) →
          (captureSequence EnrollState.init user steps).count =
            (steps.filter (fun st => isAck st.2)).length) := by
  refine ⟨fun data => ?_, fun body => ?_, fun m => ?_, fun body => ?_, fun reply => ?_,
    fun steps h => ?_⟩
  · rw [captureAndSend_of_frame s user r _ hf]
    rfl
  · rw [captureAndSend_of_frame s user r _ hf]
    rfl
  · rw [captureAndSend_of_frame s user r _ hf]
    rfl
  · rw [captureAndSend_of_frame s user r _ hf, captureAndSendSettle_count]
    have : isAck (registerFace ⟨false, body⟩) = false := by
      simp only [registerFace, throwUnlessOk]
      cases body.prop "error" <;> rfl
    simp [this]
  · rw [captureAndSend_of_frame s user r _ hf, captureAndSendSettle_count]
    omega
  · rw [captureSequence_count user steps EnrollState.init h]
    simp [EnrollState.init]

/-- Witness of C11: scenario E, five acknowledged samples and then a network error. -/
theorem C11_count_tracks_acks_witness :
    captureFrame readyRefs ≠ .null ∧
      (captureSequence EnrollState.init userAnn
        [(readyRefs, .ok sampleAck), (readyRefs, .ok sampleAck), (readyRefs, .ok sampleAck),
          (readyRefs, .ok sampleAck), (readyRefs, .ok sampleAck),
          (readyRefs, .error "Failed to fetch")]).count = 5 :=
  ⟨by decide,
    (C11_count_tracks_acks EnrollState.init userAnn readyRefs (by decide)).2.2.2.2.2
      [(readyRefs, .ok sampleAck), (readyRefs, .ok sampleAck), (readyRefs, .ok sampleAck),
        (readyRefs, .ok sampleAck), (readyRefs, .ok sampleAck),
        (readyRefs, .error "Failed to fetch")]
      (by
        intro st hst
        simp only [List.mem_cons, List.mem_singleton, List.mem_nil_iff, or_false] at hst
        rcases hst with h | h | h | h | h | h <;> rw [h] <;> decide)⟩

set_option maxRecDepth 100000 in
/-- C12, evaluated on the failing run: thirty-one clicks are accepted while count is still 0,
because the button is disabled by count alone and not by calls in flight; once the thirty-one
calls are acknowledged count is 31, above `TARGET_SAMPLES`. -/
theorem C12_count_exceeds_target :
    (enrollRun userAnn Enrollment.init burstOfClicks).state.count = 0 ∧
      (enrollRun userAnn Enrollment.init burstOfClicks).pending.length = 31 ∧
      (enrollRun userAnn Enrollment.init burstThenAcks).pending = [] ∧
      (enrollRun userAnn Enrollment.init burstThenAcks).state.count = 31 ∧
      ¬ (enrollRun userAnn Enrollment.init burstThenAcks).state.count ≤ TARGET_SAMPLES := by
  decide

/-- Counterexample to C13: the handler has no test of count; run on a complete registration
with a ready frame it issues a `registerFace` call, and count becomes 31 when the call is
acknowledged. -/
theorem C13_counterexample :
    enrollComplete.count ≥ TARGET_SAMPLES ∧
      captureFrame readyRefs ≠ .null ∧
      (captureAndSend enrollComplete userAnn readyRefs (.ok sampleAck)).calls =
        [.registerFace (.num 7) (captureFrame readyRefs) (.num 40) (.num (-75))] ∧
      (captureAndSend enrollComplete userAnn readyRefs (.ok sampleAck)).state.count = 31 := by
  decide

/-- C13, amended: for every enrollment state with count at least `TARGET_SAMPLES` the Capture
sample button is disabled, so a click on it does not run `captureAndSend`: no `registerFace`
call is issued and count, like the rest of the state, is unchanged. -/
theorem C13_click_at_target_is_noop (s : EnrollState) (user : JVal) (r : Refs)
    (reply : Except String JVal) (h : s.count ≥ TARGET_SAMPLES) :
    captureDisabled s = true ∧
      (clickCapture s user r reply).calls = [] ∧
      (clickCapture s user r reply).state = s := by
  have hd : captureDisabled s = true := by simp [captureDisabled, h]
  simp [clickCapture, hd]

/-- Witness of C13: scenario F, a click on a complete registration. -/
theorem C13_click_at_target_is_noop_witness :
    enrollComplete.count ≥ TARGET_SAMPLES ∧
      (clickCapture enrollComplete userAnn readyRefs (.ok sampleAck)).calls = [] ∧
      (clickCapture enrollComplete userAnn readyRefs (.ok sampleAck)).state.count = 30 :=
  ⟨by decide,
    (C13_click_at_target_is_noop enrollComplete userAnn readyRefs (.ok sampleAck)
      (by decide)).2.1,
    congrArg EnrollState.count
      (C13_click_at_target_is_noop enrollComplete userAnn readyRefs (.ok sampleAck)
        (by decide)).2.2⟩

/-- C14, evaluated on the failing order: when the component unmounts before the camera promise
resolves, the cleanup finds `s` undefined and stops nothing, and the stream that arrives
afterwards keeps its tracks running in an unmounted session. When the promise resolves first,
the cleanup stops the tracks, also with a gateway call in flight. -/
theorem C14_unmount_before_resolve_leaks :
    (CameraSession.init.run [.unmount, .resolve]).mounted = false ∧
      (CameraSession.init.run [.unmount, .resolve]).liveTracks = true ∧
      (CameraSession.init.run [.unmount, .resolve]).leaked = true ∧
      (CameraSession.init.run [.resolve, .callStart, .unmount]).leaked = false ∧
      (CameraSession.init.run [.reject, .callStart, .unmount]).leaked = false := by
  decide

/-- Counterexample to C15: in scenario A the status is the press-IN-or-OUT text and the
rendered kiosk shows no status; and after Mark IN was accepted the status is the
marked-IN message and the rendered kiosk still shows no status, only the panel with the name
and the confidence. -/
theorem C15_counterexample :
    decidedSuccess.status.truthy = true ∧
      (render decidedSuccess).showsStatus decidedSuccess.status = false ∧
      markedIn.status = .str "Ann marked IN successfully" ∧
      (render markedIn).statusLine = none ∧
      (render markedIn).panel =
        some ("success", .matched (.str "Ann") (.num 92) false) ∧
      (render markedIn).showsStatus markedIn.status = false := by
  decide

/-- C15, amended: for every kiosk state with a non-empty (truthy) status whose stored result is
null or has a falsy `recognized`, the rendered kiosk shows that status text in the closing
paragraph. -/
theorem C15_status_rendered (s : KioskState) (hs : s.status.truthy = true)
    (hr : (s.result.get "recognized").truthy = false) :
    (render s).statusLine = some s.status ∧ (render s).showsStatus s.status = true := by
  have h : (render s).statusLine = some s.status := by
    simp [render, JVal.optGet_eq_get, hs, hr]
  simp [KioskView.showsStatus, h]

/-- Witness of C15: scenario C, the kiosk after the gateway found no match. -/
theorem C15_status_rendered_witness :
    (handleRecognize KioskState.init readyRefs (.ok outcomeNoMatch)).state.status.truthy =
        true ∧
      (render (handleRecognize KioskState.init readyRefs (.ok outcomeNoMatch)).state).statusLine
        = some (.str "No match") :=
  ⟨by decide,
    (C15_status_rendered (handleRecognize KioskState.init readyRefs (.ok outcomeNoMatch)).state
      (by decide) (by decide)).1⟩

/-! ## Lemmas on the stored coordinate -/

theorem handleRecognizeSettle_location (s : KioskState) (reply : Except String JVal) :
    (handleRecognizeSettle s reply).location = s.location := by
  cases reply with
  | error m => rfl
  | ok data =>
    cases hn : data.isNullish
    · cases hr : (data.get "recognized").truthy
      · rw [handleRecognizeSettle_unrecognized _ _ hn hr]
      · rw [handleRecognizeSettle_recognized _ _ hr]
    · rw [handleRecognizeSettle_nullish _ _ hn]

theorem handleMarkSettle_location (result : JVal) (type : String) (s : KioskState)
    (reply : Except String JVal) :
    (handleMarkSettle result type s reply).location = s.location := by
  cases reply <;> rfl

theorem handleRecognize_location (s : KioskState) (r : Refs) (reply : Except String JVal) :
    (handleRecognize s r reply).state.location = s.location ∧
      ∀ c ∈ (handleRecognize s r reply).calls,
        c.body.get "latitude" = s.location.lat ∧ c.body.get "longitude" = s.location.lon := by
  by_cases h : captureFrame r = .null
  · rw [handleRecognize_of_no_frame s r reply h]
    exact ⟨rfl, fun c hc => by cases hc⟩
  · rw [handleRecognize_of_frame s r reply h]
    refine ⟨handleRecognizeSettle_location _ reply, fun c hc => ?_⟩
    rw [List.mem_singleton] at hc
    rw [hc]
    exact ⟨rfl, rfl⟩

theorem handleMark_location (s : KioskState) (type : String) (reply : Except String JVal) :
    (handleMark s type reply).state.location = s.location ∧
      ∀ c ∈ (handleMark s type reply).calls,
        c.body.get "latitude" = s.location.lat ∧ c.body.get "longitude" = s.location.lon := by
  by_cases hr : (s.result.get "recognized").truthy = true
  · by_cases hl : (s.result.get "location_ok").truthy = true
    · rw [handleMark_of_guard s type reply hr hl]
      refine ⟨handleMarkSettle_location _ _ _ reply, fun c hc => ?_⟩
      rw [List.mem_singleton] at hc
      rw [hc]
      exact ⟨rfl, rfl⟩
    · rw [handleMark_of_no_guard s type reply (Or.inr (by simpa using hl))]
      exact ⟨rfl, fun c hc => by cases hc⟩
  · rw [handleMark_of_no_guard s type reply (Or.inl (by simpa using hr))]
    exact ⟨rfl, fun c hc => by cases hc⟩

theorem kioskStep_location (s : KioskState) (ev : KioskEvent) (h : ev.isPosition = false) :
    (kioskStep s ev).state.location = s.location ∧
      ∀ c ∈ (kioskStep s ev).calls,
        c.body.get "latitude" = s.location.lat ∧ c.body.get "longitude" = s.location.lon := by
  cases ev with
  | position lat lon => cases h
  | positionError => exact ⟨rfl, fun c hc => by cases hc⟩
  | cameraRejected => exact ⟨rfl, fun c hc => by cases hc⟩
  | recognize r reply => exact handleRecognize_location s r reply
  | mark type reply => exact handleMark_location s type reply

theorem kioskRun_location (events : List KioskEvent) :
    ∀ s : KioskState, (∀ ev ∈ events, ev.isPosition = false) →
      (kioskRun s events).state.location = s.location ∧
        ∀ c ∈ (kioskRun s events).calls,
          c.body.get "latitude" = s.location.lat ∧
            c.body.get "longitude" = s.location.lon := by
  induction events with
  | nil => intro s _; exact ⟨rfl, fun c hc => by cases hc⟩
  | cons ev rest ih =>
    intro s h
    have hev := kioskStep_location s ev (h ev (List.mem_cons_self _ _))
    have hrest := ih (kioskStep s ev).state (fun e he => h e (List.mem_cons_of_mem _ he))
    rw [hev.1] at hrest
    refine ⟨hrest.1, fun c hc => ?_⟩
    simp only [kioskRun, List.mem_append] at hc
    rcases hc with hc | hc
    · exact hev.2 c hc
    · exact hrest.2 c hc

theorem captureAndSendSettle_location (count : Nat) (s : EnrollState)
    (reply : Except String JVal) :
    (captureAndSendSettle count s reply).location = s.location := by
  cases reply <;> rfl

theorem captureAndSendStart_body (s : EnrollState) (user : JVal) (r : Refs) (c : GatewayCall)
    (h : captureAndSendStart s user r = some c) :
    c.body.get "latitude" = s.location.lat ∧ c.body.get "longitude" = s.location.lon := by
  by_cases hf : captureFrame r = .null
  · rw [captureAndSendStart_of_no_frame s user r hf] at h
    cases h
  · rw [captureAndSendStart_of_frame s user r hf] at h
    cases h
    exact ⟨rfl, rfl⟩

theorem enrollStep_location (user : JVal) (e : Enrollment) (ev : EnrollEvent) (loc : Coords)
    (h : ev.isPosition = false) (hl : e.state.location = loc)
    (hc : ∀ c ∈ e.calls, c.body.get "latitude" = loc.lat ∧ c.body.get "longitude" = loc.lon) :
    (enrollStep user e ev).state.location = loc ∧
      ∀ c ∈ (enrollStep user e ev).calls,
        c.body.get "latitude" = loc.lat ∧ c.body.get "longitude" = loc.lon := by
  cases ev with
  | position lat lon => cases h
  | positionError => exact ⟨hl, hc⟩
  | cameraRejected => exact ⟨hl, hc⟩
  | click r =>
    simp only [enrollStep]
    split
    · exact ⟨hl, hc⟩
    · cases hs : captureAndSendStart e.state user r with
      | none => exact ⟨hl, hc⟩
      | some call =>
        refine ⟨hl, fun c hmem => ?_⟩
        simp only [List.mem_append, List.mem_singleton] at hmem
        rcases hmem with hmem | hmem
        · exact hc c hmem
        · rw [hmem, ← hl]
          exact captureAndSendStart_body e.state user r call hs
  | settle i reply =>
    simp only [enrollStep]
    cases e.pending.get? i with
    | none => exact ⟨hl, hc⟩
    | some count => exact ⟨(captureAndSendSettle_location count e.state reply).trans hl, hc⟩

theorem enrollRun_location (user : JVal) (loc : Coords) (events : List EnrollEvent) :
    ∀ e : Enrollment, (∀ ev ∈ events, ev.isPosition = false) → e.state.location = loc →
      (∀ c ∈ e.calls, c.body.get "latitude" = loc.lat ∧ c.body.get "longitude" = loc.lon) →
      (enrollRun user e events).state.location = loc ∧
        ∀ c ∈ (enrollRun user e events).calls,
          c.body.get "latitude" = loc.lat ∧ c.body.get "longitude" = loc.lon := by
  induction events with
  | nil => intro e _ hl hc; exact ⟨hl, hc⟩
  | cons ev rest ih =>
    intro e h hl hc
    have hstep := enrollStep_location user e ev loc (h ev (List.mem_cons_self _ _)) hl hc
    exact ih (enrollStep user e ev) (fun x hx => h x (List.mem_cons_of_mem _ hx))
      hstep.1 hstep.2

/-! ## The claims on location, camera failure and the gateway functions -/

/-- C16: in both sessions, as long as no geolocation success callback has fired, whatever else
happens (error callback, camera failure, handlers run, calls answered), the stored coordinate
is `lat: null, lon: null` and every gateway request issued (`recognizeFace`, `markAttendance`,
`registerFace`) has `latitude` null and `longitude` null in its body. -/
theorem C16_no_default_coordinate (kioskEvents : List KioskEvent) (user : JVal)
    (enrollEvents : List EnrollEvent)
    (hk : ∀ ev ∈ kioskEvents, ev.isPosition = false)
    (he : ∀ ev ∈ enrollEvents, ev.isPosition = false) :
    (kioskRun KioskState.init kioskEvents).state.location = { lat := .null, lon := .null } ∧
      (∀ c ∈ (kioskRun KioskState.init kioskEvents).calls,
        c.body.get "latitude" = .null ∧ c.body.get "longitude" = .null) ∧
      (enrollRun user Enrollment.init enrollEvents).state.location =
        { lat := .null, lon := .null } ∧
      (∀ c ∈ (enrollRun user Enrollment.init enrollEvents).calls,
        c.body.get "latitude" = .null ∧ c.body.get "longitude" = .null) := by
  have hkiosk := kioskRun_location kioskEvents KioskState.init hk
  have henroll := enrollRun_location user { lat := .null, lon := .null } enrollEvents
    Enrollment.init he rfl (fun c hc => by cases hc)
  exact ⟨hkiosk.1, hkiosk.2, henroll.1, henroll.2⟩

/-- Witness of C16: location denied in both sessions, then a recognition with a mark, and a
sample. -/
theorem C16_no_default_coordinate_witness :
    (∀ ev ∈ kioskLocationDenied, ev.isPosition = false) ∧
      (∀ ev ∈ enrollLocationDenied, ev.isPosition = false) ∧
      (kioskRun KioskState.init kioskLocationDenied).calls.length = 2 ∧
      (enrollRun userAnn Enrollment.init enrollLocationDenied).calls.length = 1 ∧
      (∀ c ∈ (kioskRun KioskState.init kioskLocationDenied).calls,
        c.body.get "latitude" = .null ∧ c.body.get "longitude" = .null) ∧
      (∀ c ∈ (enrollRun userAnn Enrollment.init enrollLocationDenied).calls,
        c.body.get "latitude" = .null ∧ c.body.get "longitude" = .null) :=
  ⟨by decide, by decide, by decide, by decide,
    (C16_no_default_coordinate kioskLocationDenied userAnn enrollLocationDenied
      (by decide) (by decide)).2.1,
    (C16_no_default_coordinate kioskLocationDenied userAnn enrollLocationDenied
      (by decide) (by decide)).2.2.2⟩

/-- Counterexample to C17: on a host without a geolocation API the kiosk starts location
acquisition without an exception and without a coordinate, and reports nothing: the status is
still empty. -/
theorem C17_counterexample :
    getLocation none KioskState.init = .ok KioskState.init ∧
      KioskState.init.status = .str "" ∧
      KioskState.init.status.truthy = false := by
  exact ⟨rfl, rfl, rfl⟩

/-- C17, amended: where the geolocation API exists and the position request is denied, fails or
times out, starting location acquisition raises no exception in either session, leaves the
stored coordinate as it was, and sets the status to the message of the session; while the
request is unanswered nothing changes; and on a host without the API the kiosk `getLocation`
returns without an exception and changes nothing. -/
theorem C17_location_failure_reported (s : KioskState) (e : EnrollState) :
    getLocation (some .failure) s = .ok { s with status := .str "Location not available" } ∧
      enrollLocationEffect (some .failure) e =
        .ok { e with status := "Allow location for first-time registration" } ∧
      getLocation (some .pending) s = .ok s ∧
      enrollLocationEffect (some .pending) e = .ok e ∧
      getLocation none s = .ok s := by
  exact ⟨rfl, rfl, rfl, rfl, rfl⟩

/-- Counterexample to C18: after the camera promise is rejected on a fresh kiosk the status is
the camera message and the Recognize Face button is rendered with `disabled` false. -/
theorem C18_counterexample :
    (kioskOnCameraRejected KioskState.init).status = .str "Camera access denied" ∧
      (render (kioskOnCameraRejected KioskState.init)).recognizeDisabled = false := by
  decide

/-- C18, amended: after camera acquisition fails in the kiosk the status is `Camera access
denied` and nothing else changes; the Recognize Face button stays rendered with `disabled`
equal to capturing (false on an idle kiosk); and a click on it does nothing as long as the
video has no frame: no gateway call and no change of state. -/
theorem C18_camera_rejected (s : KioskState) :
    (kioskOnCameraRejected s).status = .str "Camera access denied" ∧
      (kioskOnCameraRejected s).result = s.result ∧
      (kioskOnCameraRejected s).capturing = s.capturing ∧
      (render (kioskOnCameraRejected s)).recognizeDisabled = s.capturing ∧
      ∀ r reply, captureFrame r = .null →
        handleRecognize (kioskOnCameraRejected s) r reply =
          { state := kioskOnCameraRejected s, calls := [] } := by
  exact ⟨rfl, rfl, rfl, rfl, fun r reply h => handleRecognize_of_no_frame _ r reply h⟩

/-- Witness of C18: a fresh kiosk whose camera was refused and whose video has no frame. -/
theorem C18_camera_rejected_witness :
    captureFrame noFrameRefs = .null ∧
      handleRecognize (kioskOnCameraRejected KioskState.init) noFrameRefs (.ok outcomeSuccess) =
        { state := kioskOnCameraRejected KioskState.init, calls := [] } :=
  ⟨by decide,
    (C18_camera_rejected KioskState.init).2.2.2.2 noFrameRefs (.ok outcomeSuccess)
      (by decide)⟩

/-- C19: one `handleRecognize` issues at most one gateway call and only `recognizeFace`, one
`handleMark` at most one and only `markAttendance`, one `captureAndSend` at most one and only
`registerFace`, whatever the state, the refs and the answer of the gateway (success, failure,
rejection by the guard): nothing is retried. -/
theorem C19_at_most_one_call (s : KioskState) (e : EnrollState) (user : JVal) (r : Refs)
    (type : String) (reply : Except String JVal) :
    ((handleRecognize s r reply).calls.length ≤ 1 ∧
        ∀ c ∈ (handleRecognize s r reply).calls, ∃ img lat lon, c = .recognizeFace img lat lon) ∧
      ((handleMark s type reply).calls.length ≤ 1 ∧
        ∀ c ∈ (handleMark s type reply).calls,
          ∃ userId userName lat lon locationOk,
            c = .markAttendance userId userName type lat lon locationOk) ∧
      ((captureAndSend e user r reply).calls.length ≤ 1 ∧
        ∀ c ∈ (captureAndSend e user r reply).calls,
          ∃ userId img lat lon, c = .registerFace userId img lat lon) := by
  refine ⟨?_, ?_, ?_⟩
  · by_cases h : captureFrame r = .null
    · rw [handleRecognize_of_no_frame s r reply h]
      exact ⟨by simp, fun c hc => by cases hc⟩
    · rw [handleRecognize_of_frame s r reply h]
      refine ⟨by simp, fun c hc => ?_⟩
      rw [List.mem_singleton] at hc
      exact ⟨_, _, _, hc⟩
  · by_cases hg : (s.result.get "recognized").truthy = true ∧
        (s.result.get "location_ok").truthy = true
    · rw [handleMark_of_guard s type reply hg.1 hg.2]
      refine ⟨by simp, fun c hc => ?_⟩
      rw [List.mem_singleton] at hc
      exact ⟨_, _, _, _, _, hc⟩
    · have hnil := (handleMark_calls_eq_nil_iff s type reply).2 hg
      rw [hnil]
      exact ⟨by simp, fun c hc => by cases hc⟩
  · by_cases h : captureFrame r = .null
    · rw [captureAndSend_of_no_frame e user r reply h]
      exact ⟨by simp, fun c hc => by cases hc⟩
    · rw [captureAndSend_of_frame e user r reply h]
      refine ⟨by simp, fun c hc => ?_⟩
      rw [List.mem_singleton] at hc
      exact ⟨_, _, _, _, hc⟩

/-! ## Lemmas on the location effect and the gateway functions -/

theorem enrollLocationEffect_without_api (e : EnrollState) :
    enrollLocationEffect none e =
      .error "Cannot read properties of undefined (reading \x27getCurrentPosition\x27)" :=
  rfl

theorem throwUnlessOk_of_ok (res : HttpResponse) (h : res.ok = true) :
    throwUnlessOk res = .ok res.body := by
  simp [throwUnlessOk, h]

theorem throwUnlessOk_of_not_ok (res : HttpResponse) (h : res.ok = false)
    (hb : res.body.isNullish = false) :
    throwUnlessOk res = .error ((res.body.get "error").or (.str "Failed")).toStr := by
  simp [throwUnlessOk, h, JVal.prop, hb]

theorem throwUnlessOk_error_iff (res : HttpResponse) :
    (∃ m, throwUnlessOk res = .error m) ↔ res.ok = false := by
  cases h : res.ok
  · simp only [throwUnlessOk, h, Bool.not_false, if_true, iff_true]
    cases res.body.prop "error" with
    | error m => exact ⟨m, rfl⟩
    | ok e => exact ⟨_, rfl⟩
  · simp [throwUnlessOk_of_ok res h]

/-- Counterexample to C20: a response that is not OK and whose body is `null` has no `error`
field, yet the message thrown is the one of the `TypeError` raised by reading `data.error`,
not `Failed`. -/
theorem C20_counterexample :
    errorWithNullBody.ok = false ∧
      errorWithNullBody.body.get "error" = .undefined ∧
      markAttendance errorWithNullBody =
        .error "Cannot read properties of null (reading \x27error\x27)" ∧
      registerFace errorWithNullBody =
        .error "Cannot read properties of null (reading \x27error\x27)" ∧
      markAttendance errorWithNullBody ≠ .error "Failed" := by
  refine ⟨rfl, rfl, rfl, rfl, ?_⟩
  intro h
  have h2 : "Cannot read properties of null (reading \x27error\x27)" = "Failed" :=
    Except.error.inj h
  exact absurd h2 (by decide)

/-- C20, amended: for `markAttendance` and `registerFace` and every HTTP response whose JSON
body `data` is not null: the call throws iff the response is not OK; when it throws the message
is `data.error || Failed` as a string, that is `data.error` when it is a non-empty string and
`Failed` when it is absent or empty; when the response is OK the call returns `data` unchanged.
Hence a mark failure reported by the gateway with the error text `e` surfaces in the kiosk
status as exactly `e`. -/
theorem C20_gateway_errors (res : HttpResponse) (hb : res.body.isNullish = false) :
    registerFace res = markAttendance res ∧
      ((∃ m, markAttendance res = .error m) ↔ res.ok = false) ∧
      (res.ok = false →
        markAttendance res = .error ((res.body.get "error").or (.str "Failed")).toStr) ∧
      (∀ e, res.ok = false → res.body.get "error" = .str e → e ≠ "" →
        markAttendance res = .error e) ∧
      (res.ok = false → (res.body.get "error" = .undefined ∨ res.body.get "error" = .str "") →
        markAttendance res = .error "Failed") ∧
      (res.ok = true → markAttendance res = .ok res.body) ∧
      (∀ (s : KioskState) (type e : String),
        (s.result.get "recognized").truthy = true → (s.result.get "location_ok").truthy = true →
        res.ok = false → res.body.get "error" = .str e → e ≠ "" →
          (handleMark s type (markAttendance res)).state.status = .str e) := by
  have hstr : ∀ e, res.ok = false → res.body.get "error" = .str e → e ≠ "" →
      markAttendance res = .error e := by
    intro e hok he hne
    rw [markAttendance, throwUnlessOk_of_not_ok res hok hb, he]
    simp [JVal.or, JVal.truthy, hne, JVal.toStr]
  refine ⟨rfl, throwUnlessOk_error_iff res, fun hok => throwUnlessOk_of_not_ok res hok hb,
    hstr, fun hok he => ?_, fun hok => throwUnlessOk_of_ok res hok, ?_⟩
  · rw [markAttendance, throwUnlessOk_of_not_ok res hok hb]
    rcases he with he | he <;> rw [he] <;> rfl
  · intro s type e hr hl hok he hne
    rw [hstr e hok he hne, handleMark_of_guard s type _ hr hl]
    rfl

/-- Witness of C20: scenario A, then Mark IN refused by the gateway with `Already marked`. -/
theorem C20_gateway_errors_witness :
    errorAlreadyMarked.body.isNullish = false ∧
      markAttendance errorAlreadyMarked = .error "Already marked" ∧
      (handleMark decidedSuccess "in" (markAttendance errorAlreadyMarked)).state.status =
        .str "Already marked" :=
  ⟨rfl,
    (C20_gateway_errors errorAlreadyMarked rfl).2.2.2.1 "Already marked" rfl rfl (by decide),
    (C20_gateway_errors errorAlreadyMarked rfl).2.2.2.2.2.2 decidedSuccess "in"
      "Already marked" (by decide) (by decide) rfl rfl (by decide)⟩

/-! ## Lemmas on the busy flag and on failed samples -/

theorem handleRecognizeSettle_capturing (s : KioskState) (reply : Except String JVal) :
    (handleRecognizeSettle s reply).capturing = false := by
  cases reply with
  | error m => rfl
  | ok data =>
    cases hn : data.isNullish
    · cases hr : (data.get "recognized").truthy
      · rw [handleRecognizeSettle_unrecognized _ _ hn hr]
      · rw [handleRecognizeSettle_recognized _ _ hr]
    · rw [handleRecognizeSettle_nullish _ _ hn]

theorem handleMarkSettle_capturing (result : JVal) (type : String) (s : KioskState)
    (reply : Except String JVal) :
    (handleMarkSettle result type s reply).capturing = false := by
  cases reply <;> rfl

theorem kioskStep_capturing (s : KioskState) (ev : KioskEvent) (h : ev.isHandler = false) :
    (kioskStep s ev).state.capturing = s.capturing := by
  cases ev with
  | position lat lon => rfl
  | positionError => rfl
  | cameraRejected => rfl
  | recognize r reply => cases h
  | mark type reply => cases h

theorem kioskRun_capturing (events : List KioskEvent) :
    ∀ s : KioskState, (∀ ev ∈ events, ev.isHandler = false) →
      (kioskRun s events).state.capturing = s.capturing := by
  induction events with
  | nil => intro s _; rfl
  | cons ev rest ih =>
    intro s h
    have hrest := ih (kioskStep s ev).state (fun e he => h e (List.mem_cons_of_mem _ he))
    rw [kioskStep_capturing s ev (h ev (List.mem_cons_self _ _))] at hrest
    exact hrest

theorem captureAndSend_error (s : EnrollState) (user : JVal) (r : Refs) (m : String) :
    (captureAndSend s user r (.error m)).state.count = s.count ∧
      (captureAndSend s user r (.error m)).state.location = s.location := by
  by_cases h : captureFrame r = .null
  · rw [captureAndSend_of_no_frame s user r _ h]
    exact ⟨rfl, rfl⟩
  · rw [captureAndSend_of_frame s user r _ h]
    exact ⟨rfl, rfl⟩

theorem captureSequence_failures (user : JVal) (r : Refs) (m : String) (k : Nat) :
    ∀ s : EnrollState,
      (captureSequence s user (List.replicate k (r, .error m))).count = s.count ∧
        (captureSequence s user (List.replicate k (r, .error m))).location = s.location := by
  induction k with
  | zero => intro s; exact ⟨rfl, rfl⟩
  | succ k ih =>
    intro s
    have hstep := captureAndSend_error s user r m
    have hrest := ih (captureAndSend s user r (.error m)).state
    rw [hstep.1, hstep.2] at hrest
    exact hrest

/-! ## The claims on re-entry, the busy flag, the capture button and failed samples -/

/-- Counterexample to C21: the registry row of a subject of whom the server holds twelve
samples; the registration mounted by its Re-register button starts with count 0, not 12. -/
theorem C21_counterexample :
    registryRow.get "samples_count" = .num 12 ∧
      (mountRegistration (reRegisterUser registryRow)).state.count = 0 ∧
      (mountRegistration (reRegisterUser registryRow)).state.count ≠ 12 := by
  decide

/-- C21, amended: whenever a registration is entered or entered again, for whatever subject
and whatever number of samples the server holds, its count starts at 0; the prop built by the
Re-register button carries the id and the name but no sample count, and mounting issues no
gateway call that could fetch one. -/
theorem C21_registration_starts_at_zero (user row : JVal) :
    (mountRegistration user).state.count = 0 ∧
      (mountRegistration user).calls = [] ∧
      (mountRegistration (reRegisterUser row)).state.count = 0 ∧
      (reRegisterUser row).get "samples_count" = .undefined := by
  refine ⟨rfl, rfl, rfl, ?_⟩
  simp [reRegisterUser, JVal.get, JVal.lookup]

/-- C22: a `handleRecognize` call that passes the frame check, and a `handleMark` call that
passes the guard, set capturing to true before the gateway request is issued; capturing stays
true through whatever else happens while the call is outstanding, and is false once the
handler has completed, on a response as on an error. In every kiosk state the Recognize Face
button is rendered with `disabled` equal to capturing, and so are Mark IN and Mark OUT
whenever they are rendered. -/
theorem C22_busy_flag (s : KioskState) (r : Refs) (type : String)
    (between : List KioskEvent) (reply : Except String JVal)
    (hb : ∀ ev ∈ between, ev.isHandler = false) :
    (captureFrame r ≠ .null →
        ∃ s1 call, handleRecognizeStart s r = some (s1, call) ∧ s1.capturing = true ∧
          (render s1).recognizeDisabled = true ∧
          (kioskRun s1 between).state.capturing = true ∧
          (handleRecognizeSettle (kioskRun s1 between).state reply).capturing = false ∧
          (handleRecognize s r reply).state.capturing = false) ∧
      ((s.result.get "recognized").truthy = true → (s.result.get "location_ok").truthy = true →
        ∃ s1 call, handleMarkStart s type = some (s1, call) ∧ s1.capturing = true ∧
          (render s1).recognizeDisabled = true ∧ (render s1).markButtons = some true ∧
          (kioskRun s1 between).state.capturing = true ∧
          (handleMarkSettle s.result type (kioskRun s1 between).state reply).capturing =
            false ∧
          (handleMark s type reply).state.capturing = false) ∧
      (render s).recognizeDisabled = s.capturing ∧
      ∀ d, (render s).markButtons = some d → d = s.capturing := by
  refine ⟨fun hf => ?_, fun hr hl => ?_, rfl, fun d hd => ?_⟩
  · refine ⟨{ s with capturing := true, status := .str "Recognizing...", result := .null },
      .recognizeFace (captureFrame r) s.location.lat s.location.lon, ?_, rfl, rfl, ?_, ?_, ?_⟩
    · simp [handleRecognizeStart, captureFrame_truthy r hf]
    · rw [kioskRun_capturing between _ hb]
    · exact handleRecognizeSettle_capturing _ reply
    · rw [handleRecognize_of_frame s r reply hf]
      exact handleRecognizeSettle_capturing _ reply
  · refine ⟨{ s with capturing := true },
      .markAttendance (s.result.get "user_id") (s.result.get "name") type
        s.location.lat s.location.lon (.bool true), ?_, rfl, rfl, ?_, ?_, ?_, ?_⟩
    · simp [handleMarkStart, JVal.optGet_eq_get, hr, hl]
    · simp [render, markButtonsRendered, JVal.optGet_eq_get, hr, hl]
    · rw [kioskRun_capturing between _ hb]
    · exact handleMarkSettle_capturing _ _ _ reply
    · rw [handleMark_of_guard s type reply hr hl]
      exact handleMarkSettle_capturing _ _ _ reply
  · simp only [render] at hd
    split at hd
    · exact (Option.some.inj hd).symm
    · cases hd

/-- Witness of C22: scenario A is recognized while geolocation answers and the camera promise
is rejected, then Mark IN fails. -/
theorem C22_busy_flag_witness :
    (∀ ev ∈ whileInFlight, ev.isHandler = false) ∧
      captureFrame readyRefs ≠ .null ∧
      (decidedSuccess.result.get "recognized").truthy = true ∧
      (decidedSuccess.result.get "location_ok").truthy = true ∧
      (∃ s1 call, handleRecognizeStart decidedSuccess readyRefs = some (s1, call) ∧
        s1.capturing = true ∧ (render s1).recognizeDisabled = true ∧
        (kioskRun s1 whileInFlight).state.capturing = true ∧
        (handleRecognizeSettle (kioskRun s1 whileInFlight).state
          (.error "Already marked")).capturing = false ∧
        (handleRecognize decidedSuccess readyRefs (.error "Already marked")).state.capturing =
          false) ∧
      (render decidedSuccess).recognizeDisabled = decidedSuccess.capturing :=
  ⟨by decide, by decide, by decide, by decide,
    (C22_busy_flag decidedSuccess readyRefs "in" whileInFlight (.error "Already marked")
      (by decide)).1 (by decide),
    (C22_busy_flag decidedSuccess readyRefs "in" whileInFlight (.error "Already marked")
      (by decide)).2.2.1⟩

/-- C23: in every enrollment state the Capture sample button is rendered disabled iff count is
at least `TARGET_SAMPLES`, which is 30: enabled for every count from 0 to 29, disabled from 30
on. -/
theorem C23_capture_disabled_iff (s : EnrollState) :
    TARGET_SAMPLES = 30 ∧
      ((renderEnroll s).captureDisabled = true ↔ s.count ≥ 30) ∧
      ((renderEnroll s).captureDisabled = false ↔ s.count ≤ 29) := by
  refine ⟨rfl, ?_, ?_⟩
  · simp [renderEnroll, captureDisabled, TARGET_SAMPLES]
  · simp [renderEnroll, captureDisabled, TARGET_SAMPLES]
    omega

/-- C24: for every enrollment state with count below 30 and a ready frame, if the
`registerFace` call made by `captureAndSend` fails with the message `m`, then afterwards status
is `m`, count and location are unchanged and the Capture sample button is still enabled; and
any number `k` of such failures in a row leaves count and location unchanged and the button
enabled. -/
theorem C24_failed_sample_retry (s : EnrollState) (user : JVal) (r : Refs) (m : String)
    (hc : s.count < TARGET_SAMPLES) (hf : captureFrame r ≠ .null) :
    (captureAndSend s user r (.error m)).state = { s with status := m } ∧
      (clickCapture s user r (.error m)).state = { s with status := m } ∧
      (renderEnroll (captureAndSend s user r (.error m)).state).captureDisabled = false ∧
      ∀ k,
        (captureSequence s user (List.replicate k (r, .error m))).count = s.count ∧
          (captureSequence s user (List.replicate k (r, .error m))).location = s.location ∧
          (renderEnroll
            (captureSequence s user (List.replicate k (r, .error m)))).captureDisabled =
            false := by
  have hd : captureDisabled s = false := by
    simp only [captureDisabled, decide_eq_false_iff_not]
    omega
  have h1 : (captureAndSend s user r (.error m)).state = { s with status := m } := by
    rw [captureAndSend_of_frame s user r _ hf]
    rfl
  refine ⟨h1, ?_, ?_, fun k => ?_⟩
  · simp [clickCapture, hd, h1]
  · rw [h1]
    exact hd
  · have hk := captureSequence_failures user r m k s
    refine ⟨hk.1, hk.2, ?_⟩
    simp only [renderEnroll, captureDisabled, hk.1, decide_eq_false_iff_not]
    omega

/-- Witness of C24: twelve samples collected, then the network fails three times. -/
theorem C24_failed_sample_retry_witness :
    enrollMidway.count < TARGET_SAMPLES ∧
      captureFrame readyRefs ≠ .null ∧
      (captureAndSend enrollMidway userAnn readyRefs (.error "Failed to fetch")).state =
        { enrollMidway with status := "Failed to fetch" } ∧
      (captureSequence enrollMidway userAnn
        (List.replicate 3 (readyRefs, .error "Failed to fetch"))).count = enrollMidway.count :=
  ⟨by decide, by decide,
    (C24_failed_sample_retry enrollMidway userAnn readyRefs "Failed to fetch" (by decide)
      (by decide)).1,
    ((C24_failed_sample_retry enrollMidway userAnn readyRefs "Failed to fetch" (by decide)
      (by decide)).2.2.2 3).1⟩

/-! ## Lemmas on rendering -/

theorem JVal.truthy_of_truthy_get {v : JVal} {k : String} (h : (v.get k).truthy = true) :
    v.truthy = true := by
  cases v <;> first | rfl | cases h

theorem render_overlay_of_truthy (s : KioskState) (h : s.location.lat.truthy = true) :
    (render s).overlay = "FaceSense Pattern | Location captured" := by
  simp [render, h]

theorem render_overlay_of_falsy (s : KioskState) (h : s.location.lat.truthy = false) :
    (render s).overlay = "FaceSense Pattern | Requesting location..." := by
  simp [render, h]

theorem panelClass_cases (result : JVal) :
    (panelClass result = "success" ↔
        ((result.get "recognized").truthy = true ∧ (result.get "location_ok").truthy = true)) ∧
      (panelClass result = "error" ↔
        ((result.get "recognized").truthy = true ∧
          (result.get "location_ok").truthy = false)) ∧
      (panelClass result = "info" ↔ (result.get "recognized").truthy = false) := by
  unfold panelClass
  cases (result.get "recognized").truthy <;> cases (result.get "location_ok").truthy <;>
    simp

/-! ## The claims on the recognize gateway, the overlay, render gating and the requests -/

/-- C25: `recognizeFace` returns the JSON body whatever the HTTP status; for a response that is
not OK and whose body is an object with the single field `error`, `handleRecognize` stores
that body as a result that is not null and sets status to `Face not recognized`, whatever the
error text, while `markAttendance` and `registerFace` throw for the same response. -/
theorem C25_recognize_ignores_status (s : KioskState) (r : Refs) (e : JVal) (ok : Bool)
    (body : JVal) (hf : captureFrame r ≠ .null) :
    recognizeFace ⟨ok, body⟩ = .ok body ∧
      (handleRecognize s r (recognizeFace ⟨false, .obj [("error", e)]⟩)).state.result =
        .obj [("error", e)] ∧
      (handleRecognize s r (recognizeFace ⟨false, .obj [("error", e)]⟩)).state.result ≠ .null ∧
      (handleRecognize s r (recognizeFace ⟨false, .obj [("error", e)]⟩)).state.status =
        .str "Face not recognized" ∧
      markAttendance ⟨false, .obj [("error", e)]⟩ = .error (e.or (.str "Failed")).toStr ∧
      registerFace ⟨false, .obj [("error", e)]⟩ = .error (e.or (.str "Failed")).toStr := by
  have hrec : ((JVal.obj [("error", e)]).get "recognized").truthy = false := by
    simp [JVal.get, JVal.lookup, JVal.truthy]
  have hmsg : (JVal.obj [("error", e)]).get "message" = .undefined := by
    simp [JVal.get, JVal.lookup]
  have hS : (handleRecognize s r (recognizeFace ⟨false, .obj [("error", e)]⟩)).state =
      { s with result := .obj [("error", e)], status := .str "Face not recognized",
               capturing := false } := by
    rw [recognizeFace, handleRecognize_of_frame s r _ hf,
      handleRecognizeSettle_unrecognized _ (.obj [("error", e)]) rfl hrec, hmsg]
    rfl
  rw [hS]
  refine ⟨rfl, rfl, by simp, rfl, ?_, ?_⟩
  · rw [markAttendance, throwUnlessOk_of_not_ok ⟨false, .obj [("error", e)]⟩ rfl rfl]
    simp [JVal.get, JVal.lookup]
  · rw [registerFace, throwUnlessOk_of_not_ok ⟨false, .obj [("error", e)]⟩ rfl rfl]
    simp [JVal.get, JVal.lookup]

/-- Witness of C25: the model is not trained and the gateway answers 500 with that text. -/
theorem C25_recognize_ignores_status_witness :
    captureFrame readyRefs ≠ .null ∧
      (handleRecognize KioskState.init readyRefs (recognizeFace errorServer)).state.status =
        .str "Face not recognized" ∧
      markAttendance errorServer = .error "Model not trained" :=
  ⟨by decide,
    (C25_recognize_ignores_status KioskState.init readyRefs (.str "Model not trained") false
      .null (by decide)).2.2.2.1,
    (C25_recognize_ignores_status KioskState.init readyRefs (.str "Model not trained") false
      .null (by decide)).2.2.2.2.1⟩

/-- C26, evaluated on the failing input: with latitude 0 stored by the geolocation success
callback, a coordinate has been obtained (lat is the number 0, not null), yet the overlay of
the kiosk reads `Requesting location...` and the one of the registration `Getting
location...`; for a latitude that is not 0 both read as captured. -/
theorem C26_overlay_at_latitude_zero :
    kioskOnEquator.location = { lat := .num 0, lon := .num 10 } ∧
      kioskOnEquator.location.lat ≠ .null ∧
      (render kioskOnEquator).overlay = "FaceSense Pattern | Requesting location..." ∧
      enrollOnEquator.location.lat ≠ .null ∧
      (renderEnroll enrollOnEquator).overlay =
        "FaceSense Pattern | 0/30 samples | Getting location..." ∧
      (render (kioskOnPosition 40 (-75) KioskState.init)).overlay =
        "FaceSense Pattern | Location captured" ∧
      (renderEnroll (enrollOnPosition 40 (-75) EnrollState.init)).overlay =
        "FaceSense Pattern | 0/30 samples | Location ready" := by
  decide

/-- C27: in every kiosk state the Mark IN and Mark OUT buttons are rendered iff `handleMark`
passes its guard, that is iff `recognized` and `location_ok` of the stored result are truthy
(the result is then an object); the result panel has the class `success` exactly in that case,
`error` iff `recognized` is truthy and `location_ok` is not, and `info` iff a result is stored
(the render shows the panel) with a falsy `recognized`. -/
theorem C27_render_gating (s : KioskState) (type : String) :
    ((render s).markButtons.isSome = true ↔ (handleMarkStart s type).isSome = true) ∧
      ((render s).markButtons.isSome = true ↔
        (s.result.isNullish = false ∧ (s.result.get "recognized").truthy = true ∧
          (s.result.get "location_ok").truthy = true)) ∧
      ((render s).panel.map Prod.fst = some "success" ↔
        ((s.result.get "recognized").truthy = true ∧
          (s.result.get "location_ok").truthy = true)) ∧
      ((render s).panel.map Prod.fst = some "error" ↔
        ((s.result.get "recognized").truthy = true ∧
          (s.result.get "location_ok").truthy = false)) ∧
      ((render s).panel.map Prod.fst = some "info" ↔
        (s.result.truthy = true ∧ (s.result.get "recognized").truthy = false)) := by
  have hbtn : (render s).markButtons.isSome = true ↔
      ((s.result.get "recognized").truthy = true ∧
        (s.result.get "location_ok").truthy = true) := by
    cases hr : (s.result.get "recognized").truthy <;>
      cases hl : (s.result.get "location_ok").truthy <;>
      simp [render, markButtonsRendered, JVal.optGet_eq_get, hr, hl]
  have hstart : (handleMarkStart s type).isSome = true ↔
      ((s.result.get "recognized").truthy = true ∧
        (s.result.get "location_ok").truthy = true) := by
    cases hr : (s.result.get "recognized").truthy <;>
      cases hl : (s.result.get "location_ok").truthy <;>
      simp [handleMarkStart, JVal.optGet_eq_get, hr, hl]
  have hcls := panelClass_cases s.result
  refine ⟨hbtn.trans hstart.symm, hbtn.trans ⟨fun h => ⟨?_, h⟩, fun h => h.2⟩, ?_, ?_, ?_⟩
  · have hr := h.1
    cases hn : s.result.isNullish
    · rfl
    · rw [JVal.get_of_isNullish hn] at hr
      cases hr
  · cases ht : s.result.truthy
    · simp only [render, ht, Bool.false_eq_true, if_false, Option.map_none]
      constructor
      · intro h
        cases h
      · intro h
        rw [JVal.truthy_of_truthy_get h.1] at ht
        cases ht
    · simp [render, ht, hcls.1]
  · cases ht : s.result.truthy
    · simp only [render, ht, Bool.false_eq_true, if_false, Option.map_none]
      constructor
      · intro h
        cases h
      · intro h
        rw [JVal.truthy_of_truthy_get h.1] at ht
        cases ht
    · simp [render, ht, hcls.2.1]
  · cases ht : s.result.truthy
    · simp [render, ht]
    · simp [render, ht, hcls.2.2]

/-- C28: the `markAttendance` request that `handleMark(type)` issues once its guard has passed
carries `user_id = result.user_id` and `user_name = result.name` of the stored outcome, the
given type unchanged, the stored coordinate as latitude and longitude, and `location_ok =
true`, which is the stored outcome's `location_ok` when that is a boolean. -/
theorem C28_mark_request (s : KioskState) (type : String) (reply : Except String JVal)
    (hr : (s.result.get "recognized").truthy = true)
    (hl : (s.result.get "location_ok").truthy = true) :
    ∃ c, (handleMark s type reply).calls = [c] ∧
      c = .markAttendance (s.result.get "user_id") (s.result.get "name") type
        s.location.lat s.location.lon (.bool true) ∧
      c.body.get "user_id" = s.result.get "user_id" ∧
      c.body.get "user_name" = s.result.get "name" ∧
      c.body.get "type" = .str type ∧
      c.body.get "latitude" = s.location.lat ∧
      c.body.get "longitude" = s.location.lon ∧
      c.body.get "location_ok" = .bool true ∧
      (∀ b, s.result.get "location_ok" = .bool b →
        c.body.get "location_ok" = s.result.get "location_ok") := by
  refine ⟨_, congrArg Run.calls (handleMark_of_guard s type reply hr hl), rfl, rfl, rfl, rfl,
    rfl, rfl, rfl, fun b hb => ?_⟩
  rw [hb] at hl ⊢
  cases b
  · cases hl
  · rfl

/-- Witness of C28: scenario A at (40, -75), then Mark OUT. -/
theorem C28_mark_request_witness :
    (decidedSuccess.result.get "recognized").truthy = true ∧
      (decidedSuccess.result.get "location_ok").truthy = true ∧
      ∃ c, (handleMark decidedSuccess "out" (.ok markAck)).calls = [c] ∧
        c = .markAttendance (decidedSuccess.result.get "user_id")
          (decidedSuccess.result.get "name") "out" decidedSuccess.location.lat
          decidedSuccess.location.lon (.bool true) :=
  ⟨by decide, by decide,
    (C28_mark_request decidedSuccess "out" (.ok markAck) (by decide) (by decide)).elim
      fun c h => ⟨c, h.1, h.2.1⟩⟩

/-- C29: for every enrollment state with count `c` and a ready frame, after a `captureAndSend`
call run to completion with no other call outstanding whose submission is acknowledged, status
is `Captured `, then `c + 1`, then `/30`, and `c + 1` is the new value of count. -/
theorem C29_captured_status (s : EnrollState) (user : JVal) (r : Refs) (data : JVal)
    (hf : captureFrame r ≠ .null) :
    (captureAndSend s user r (.ok data)).state.status =
        "Captured " ++ toString (s.count + 1) ++ "/30" ∧
      (captureAndSend s user r (.ok data)).state.count = s.count + 1 ∧
      (captureAndSend s user r (.ok data)).state.status =
        "Captured " ++ toString (captureAndSend s user r (.ok data)).state.count ++ "/30" := by
  have hS : (captureAndSend s user r (.ok data)).state =
      { s with count := s.count + 1,
               status := "Captured " ++ toString (s.count + 1) ++ "/30" } := by
    rw [captureAndSend_of_frame s user r _ hf]
    simp only [captureAndSendSettle, String.append_assoc]
    rfl
  rw [hS]
  exact ⟨rfl, rfl, rfl⟩

/-- Witness of C29: the thirteenth sample of a registration. -/
theorem C29_captured_status_witness :
    captureFrame readyRefs ≠ .null ∧
      (captureAndSend enrollMidway userAnn readyRefs (.ok sampleAck)).state.status =
        "Captured " ++ toString (enrollMidway.count + 1) ++ "/30" ∧
      (captureAndSend enrollMidway userAnn readyRefs (.ok sampleAck)).state.status =
        "Captured 13/30" :=
  ⟨by decide,
    (C29_captured_status enrollMidway userAnn readyRefs sampleAck (by decide)).1,
    by decide⟩

/-- C30: for every enrollment state, if the video element or the canvas is missing, or
`videoWidth` is 0, then `captureAndSend` issues no `registerFace` call and leaves count, status
and location, the whole state, unchanged. -/
theorem C30_no_frame_no_sample (s : EnrollState) (user : JVal) (r : Refs)
    (reply : Except String JVal)
    (h : r.video = none ∨ r.canvas = false ∨ ∃ v, r.video = some v ∧ v.videoWidth = 0) :
    captureAndSendStart s user r = none ∧
      (captureAndSend s user r reply).calls = [] ∧
      (captureAndSend s user r reply).state = s := by
  have hc : captureFrame r = .null := (captureFrame_eq_null_iff r).2 h
  rw [captureAndSend_of_no_frame s user r reply hc]
  exact ⟨captureAndSendStart_of_no_frame s user r hc, rfl, rfl⟩

/-- Witness of C30: a registration whose canvas is not mounted. -/
theorem C30_no_frame_no_sample_witness :
    noCanvasRefs.canvas = false ∧
      (captureAndSend enrollMidway userAnn noCanvasRefs (.ok sampleAck)).calls = [] ∧
      (captureAndSend enrollMidway userAnn noCanvasRefs (.ok sampleAck)).state = enrollMidway :=
  ⟨rfl,
    (C30_no_frame_no_sample enrollMidway userAnn noCanvasRefs (.ok sampleAck)
      (Or.inr (Or.inl rfl))).2.1,
    (C30_no_frame_no_sample enrollMidway userAnn noCanvasRefs (.ok sampleAck)
      (Or.inr (Or.inl rfl))).2.2⟩

end FaceSense
